import Mathlib

/-!
Verification development for the teltonika-configurator repository.

The core under verification is `src/src/component_tree.rs`:
  * `parse_component` (lines 28-106): a stack machine consuming the event
    stream of the external quick_xml reader and producing a `Component` tree.
  * `render_component` (lines 117-178): dispatch of a `Component` node to a
    renderable kind (div / img / svg) of the external gpui layer.
  * `hex_to_rgb` (lines 182-190), `set_attributes` (lines 192-865) and
    `extract_length_from_class_name` (lines 868-887): the class-token
    resolution engine.
and the reload subscriber in `src/crates/configurator/src/hello.rs`
(lines 26-100).

External collaborators are embedded at their interface, as the spec
prescribes:
  * the quick_xml reader is abstracted to the event stream it yields
    (`XEvent`); a reader error (the `Err` branch of `read_event_into`)
    is the event `XEvent.err`;
  * the gpui `Styled` builder methods are modelled as writes to a style
    map (`StyleMap`), one slot per visual property; gpui lengths are
    modelled with exact rationals (`Rat`), standing in for the `f32`
    values of the source (none of the verified properties depends on
    float rounding);
  * a Rust `panic!` or failed `.unwrap()` is the `Except.error` case of
    `Except RustPanic`, which aborts the surrounding computation the way
    an unwinding panic does.
-/

/-- A Rust panic (an explicit `panic!` or a failed `.unwrap()`): it aborts
the whole surrounding computation, and in the host application the whole
process. -/
inductive RustPanic where
  | panicked
deriving DecidableEq, Repr

/-- One event of the external quick_xml reader stream, as consumed by
`parse_component` (component_tree.rs lines 39-96).  `err` is the `Err`
branch of `read_event_into`; `other` covers the event kinds the source
ignores with its catch-all arm (comments, CData, declarations, ...).
The reader is configured with `expand_empty_elements(true)`, so streams
produced from real markup never contain `empty`; the constructor is kept
because the source handles it (lines 68-76). -/
inductive XEvent where
  | start (name : String) (attrs : List (String × String))
  | empty (name : String) (attrs : List (String × String))
  | endTag
  | text (s : String)
  | other
  | err
deriving DecidableEq, Repr

/-- The element-node tree of the source (`struct Component`,
component_tree.rs lines 20-26). -/
inductive Component where
  | mk (elem : String) (text : Option String)
       (attributes : List (String × String)) (children : List Component)
deriving Repr

def Component.elem : Component → String
  | ⟨e, _, _, _⟩ => e

def Component.text : Component → Option String
  | ⟨_, t, _, _⟩ => t

def Component.attributes : Component → List (String × String)
  | ⟨_, _, a, _⟩ => a

def Component.children : Component → List Component
  | ⟨_, _, _, c⟩ => c

/-- `parent.children.push(child)` of the source. -/
def addChild (p : Component) (c : Component) : Component :=
  match p with
  | ⟨e, t, a, ch⟩ => ⟨e, t, a, ch ++ [c]⟩

def addChildren (p : Component) (cs : List Component) : Component :=
  match p with
  | ⟨e, t, a, ch⟩ => ⟨e, t, a, ch ++ cs⟩

/-- `parent.text = Some(text)` of the source (overwrites any previous text). -/
def setText (p : Component) (s : String) : Component :=
  match p with
  | ⟨e, _, a, ch⟩ => ⟨e, some s, a, ch⟩

/-- The placeholder returned when the stack is empty at end-of-stream
(component_tree.rs lines 100-105). -/
def errorComponent : Component := ⟨"error", some "error", [], []⟩

/-- The event loop of `parse_component` (component_tree.rs lines 38-98)
followed by the final `stack.pop()` (lines 100-105).  The stack is kept
head-first: the head of the list is the top of the source's `Vec` stack,
so `stack.last_mut()` is the head and the final `stack.pop()` takes the
head.  The `Err(e) => panic!` branch (line 94) is the `.error` case. -/
def buildGo : List Component → List XEvent → Except RustPanic Component
  | stack, [] =>
    match stack with
    | c :: _ => .ok c
    | [] => .ok errorComponent
  | stack, e :: rest =>
    match e with
    | .start n a => buildGo (⟨n, none, a, []⟩ :: stack) rest
    | .empty n a =>
      match stack with
      | p :: s => buildGo (addChild p ⟨n, none, a, []⟩ :: s) rest
      | [] => buildGo [] rest
    | .endTag =>
      match stack with
      | c :: p :: s => buildGo (addChild p c :: s) rest
      | _ => buildGo stack rest
    | .text t =>
      match stack with
      | p :: s => buildGo (setText p t :: s) rest
      | [] => buildGo [] rest
    | .other => buildGo stack rest
    | .err => .error .panicked

/-- `parse_component` (component_tree.rs lines 28-106), with the external
quick_xml reader abstracted to the event stream it produces for the input
string. -/
def parse_component (events : List XEvent) : Except RustPanic Component :=
  buildGo [] events

/-! ## The style model: gpui `Styled` at its interface -/

/-- One visual-property slot of the external gpui style object.  Every
`Styled` builder method used by `set_attributes` writes one or more of
these slots. -/
inductive Slot where
  | display | position | visibility | overflowX | overflowY | cursor
  | justify | alignItems | flexDir | flexGrow | flexShrink | flexBasis
  | shadow | height | width | minHeight | minWidth | maxHeight | maxWidth
  | padT | padR | padB | padL | marT | marR | marB | marL
  | borT | borR | borB | borL | radTL | radTR | radBR | radBL
  | bg | textColor
deriving DecidableEq, Repr

/-- The gpui color value built by `rgb(value)`: the packed
`(r << 16) + (g << 8) + b` integer (component_tree.rs line 188). -/
structure Rgba where
  value : Nat
deriving DecidableEq, Repr

/-- Red channel of a packed color. -/
def Rgba.rC (c : Rgba) : Nat := (c.value >>> 16) % 256

/-- Green channel of a packed color. -/
def Rgba.gC (c : Rgba) : Nat := (c.value >>> 8) % 256

/-- Blue channel of a packed color. -/
def Rgba.bC (c : Rgba) : Nat := c.value % 256

/-- gpui `AbsoluteLength` together with the other length forms the
enumerated classes use (fractions, auto, full).  Rationals stand in for
the source's `f32` values. -/
inductive AbsLen where
  | pxl (v : Rat)
  | reml (v : Rat)
  | frac (num den : Nat)
  | auto
  | full
deriving DecidableEq, Repr

/-- The payload written to a slot. -/
inductive Val where
  | tag (s : String)
  | len (l : AbsLen)
  | num (v : Rat)
  | color (c : Rgba)
deriving DecidableEq, Repr

/-- The style state of a gpui element: what has been written to each
slot (`none` = the slot is untouched, the element's default). -/
def StyleMap := Slot → Option Val

/-- The style of a freshly constructed element (`div()`, `img(..)`,
`svg()`): nothing written yet. -/
def emptyStyle : StyleMap := fun _ => none

/-- One gpui builder-method call: write one slot. -/
def writeSlot (s : StyleMap) (x : Slot) (v : Val) : StyleMap :=
  Function.update s x (some v)

/-- A chain of builder-method slot writes, applied left to right. -/
def applyWrites (s : StyleMap) (ws : List (Slot × Val)) : StyleMap :=
  ws.foldl (fun st p => Function.update st p.1 (some p.2)) s


/-- The enumerated match of `set_attributes` (component_tree.rs lines
215-839), entry for entry: an exact token maps to the slot writes its gpui
builder method performs.  The source's `match` on the token string is
represented as first-match lookup in this table (the tokens are pairwise
distinct, so the two are the same function). -/
def enumTable : List (String × List (Slot × Val)) := [
  ("flex", [(Slot.display, Val.tag "flex")]),
  ("block", [(Slot.display, Val.tag "block")]),
  ("absolute", [(Slot.position, Val.tag "absolute")]),
  ("relative", [(Slot.position, Val.tag "relative")]),
  ("visible", [(Slot.visibility, Val.tag "visible")]),
  ("invisible", [(Slot.visibility, Val.tag "hidden")]),
  ("overflow-hidden", [(Slot.overflowX, Val.tag "hidden"), (Slot.overflowY, Val.tag "hidden")]),
  ("overflow-x-hidden", [(Slot.overflowX, Val.tag "hidden")]),
  ("overflow-y-hidden", [(Slot.overflowY, Val.tag "hidden")]),
  ("cursor-default", [(Slot.cursor, Val.tag "default")]),
  ("cursor-pointer", [(Slot.cursor, Val.tag "pointer")]),
  ("cursor-text", [(Slot.cursor, Val.tag "text")]),
  ("cursor-move", [(Slot.cursor, Val.tag "move")]),
  ("cursor-not-allowed", [(Slot.cursor, Val.tag "not_allowed")]),
  ("cursor-context-menu", [(Slot.cursor, Val.tag "context_menu")]),
  ("cursor-crosshair", [(Slot.cursor, Val.tag "crosshair")]),
  ("cursor-vertical-text", [(Slot.cursor, Val.tag "vertical_text")]),
  ("cursor-alias", [(Slot.cursor, Val.tag "alias")]),
  ("cursor-copy", [(Slot.cursor, Val.tag "copy")]),
  ("cursor-no-drop", [(Slot.cursor, Val.tag "no_drop")]),
  ("cursor-grab", [(Slot.cursor, Val.tag "grab")]),
  ("cursor-grabbing", [(Slot.cursor, Val.tag "grabbing")]),
  ("cursor-col-resize", [(Slot.cursor, Val.tag "col_resize")]),
  ("cursor-row-resize", [(Slot.cursor, Val.tag "row_resize")]),
  ("cursor-n-resize", [(Slot.cursor, Val.tag "n_resize")]),
  ("cursor-e-resize", [(Slot.cursor, Val.tag "e_resize")]),
  ("cursor-s-resize", [(Slot.cursor, Val.tag "s_resize")]),
  ("cursor-w-resize", [(Slot.cursor, Val.tag "w_resize")]),
  ("justify-center", [(Slot.justify, Val.tag "center")]),
  ("justify-between", [(Slot.justify, Val.tag "between")]),
  ("justify-around", [(Slot.justify, Val.tag "around")]),
  ("justify-start", [(Slot.justify, Val.tag "start")]),
  ("justify-end", [(Slot.justify, Val.tag "end")]),
  ("items-start", [(Slot.alignItems, Val.tag "start")]),
  ("items-end", [(Slot.alignItems, Val.tag "end")]),
  ("items-center", [(Slot.alignItems, Val.tag "center")]),
  ("flex-col", [(Slot.flexDir, Val.tag "column")]),
  ("flex-row", [(Slot.flexDir, Val.tag "row")]),
  ("flex-col_reverse", [(Slot.flexDir, Val.tag "column_reverse")]),
  ("flex-row_reverse", [(Slot.flexDir, Val.tag "row_reverse")]),
  ("flex-1", [(Slot.flexGrow, Val.num (1 : Rat)), (Slot.flexShrink, Val.num (1 : Rat)), (Slot.flexBasis, Val.len (AbsLen.pxl (0 : Rat)))]),
  ("flex-auto", [(Slot.flexGrow, Val.num (1 : Rat)), (Slot.flexShrink, Val.num (1 : Rat)), (Slot.flexBasis, Val.len AbsLen.auto)]),
  ("flex-initial", [(Slot.flexGrow, Val.num (0 : Rat)), (Slot.flexShrink, Val.num (1 : Rat)), (Slot.flexBasis, Val.len AbsLen.auto)]),
  ("flex-none", [(Slot.flexGrow, Val.num (0 : Rat)), (Slot.flexShrink, Val.num (0 : Rat))]),
  ("flex-grow", [(Slot.flexGrow, Val.num (1 : Rat))]),
  ("flex-shrink", [(Slot.flexShrink, Val.num (1 : Rat))]),
  ("flex-shrink_0", [(Slot.flexShrink, Val.num (0 : Rat))]),
  ("shadow-sm", [(Slot.shadow, Val.tag "sm")]),
  ("shadow-md", [(Slot.shadow, Val.tag "md")]),
  ("shadow-lg", [(Slot.shadow, Val.tag "lg")]),
  ("shadow-xl", [(Slot.shadow, Val.tag "xl")]),
  ("shadow-2xl", [(Slot.shadow, Val.tag "2xl")]),
  ("h-0", [(Slot.height, Val.len (AbsLen.reml ((0 : Rat) / 4)))]),
  ("h-1", [(Slot.height, Val.len (AbsLen.reml ((1 : Rat) / 4)))]),
  ("h-2", [(Slot.height, Val.len (AbsLen.reml ((2 : Rat) / 4)))]),
  ("h-3", [(Slot.height, Val.len (AbsLen.reml ((3 : Rat) / 4)))]),
  ("h-4", [(Slot.height, Val.len (AbsLen.reml ((4 : Rat) / 4)))]),
  ("h-5", [(Slot.height, Val.len (AbsLen.reml ((5 : Rat) / 4)))]),
  ("h-6", [(Slot.height, Val.len (AbsLen.reml ((6 : Rat) / 4)))]),
  ("h-8", [(Slot.height, Val.len (AbsLen.reml ((8 : Rat) / 4)))]),
  ("h-10", [(Slot.height, Val.len (AbsLen.reml ((10 : Rat) / 4)))]),
  ("h-12", [(Slot.height, Val.len (AbsLen.reml ((12 : Rat) / 4)))]),
  ("h-16", [(Slot.height, Val.len (AbsLen.reml ((16 : Rat) / 4)))]),
  ("h-20", [(Slot.height, Val.len (AbsLen.reml ((20 : Rat) / 4)))]),
  ("h-24", [(Slot.height, Val.len (AbsLen.reml ((24 : Rat) / 4)))]),
  ("h-32", [(Slot.height, Val.len (AbsLen.reml ((32 : Rat) / 4)))]),
  ("h-40", [(Slot.height, Val.len (AbsLen.reml ((40 : Rat) / 4)))]),
  ("h-48", [(Slot.height, Val.len (AbsLen.reml ((48 : Rat) / 4)))]),
  ("h-56", [(Slot.height, Val.len (AbsLen.reml ((56 : Rat) / 4)))]),
  ("h-64", [(Slot.height, Val.len (AbsLen.reml ((64 : Rat) / 4)))]),
  ("h-72", [(Slot.height, Val.len (AbsLen.reml ((72 : Rat) / 4)))]),
  ("h-80", [(Slot.height, Val.len (AbsLen.reml ((80 : Rat) / 4)))]),
  ("h-96", [(Slot.height, Val.len (AbsLen.reml ((96 : Rat) / 4)))]),
  ("h-auto", [(Slot.height, Val.len AbsLen.auto)]),
  ("h-full", [(Slot.height, Val.len AbsLen.full)]),
  ("h-1/2", [(Slot.height, Val.len (AbsLen.frac 1 2))]),
  ("h-1/3", [(Slot.height, Val.len (AbsLen.frac 1 3))]),
  ("h-2/3", [(Slot.height, Val.len (AbsLen.frac 2 3))]),
  ("h-1/4", [(Slot.height, Val.len (AbsLen.frac 1 4))]),
  ("h-2/4", [(Slot.height, Val.len (AbsLen.frac 2 4))]),
  ("h-3/4", [(Slot.height, Val.len (AbsLen.frac 3 4))]),
  ("h-1/5", [(Slot.height, Val.len (AbsLen.frac 1 5))]),
  ("h-2/5", [(Slot.height, Val.len (AbsLen.frac 2 5))]),
  ("h-3/5", [(Slot.height, Val.len (AbsLen.frac 3 5))]),
  ("h-4/5", [(Slot.height, Val.len (AbsLen.frac 4 5))]),
  ("h-1/6", [(Slot.height, Val.len (AbsLen.frac 1 6))]),
  ("h-5/6", [(Slot.height, Val.len (AbsLen.frac 5 6))]),
  ("h-1/12", [(Slot.height, Val.len (AbsLen.frac 1 12))]),
  ("w-0", [(Slot.width, Val.len (AbsLen.reml ((0 : Rat) / 4)))]),
  ("w-1", [(Slot.width, Val.len (AbsLen.reml ((1 : Rat) / 4)))]),
  ("w-2", [(Slot.width, Val.len (AbsLen.reml ((2 : Rat) / 4)))]),
  ("w-3", [(Slot.width, Val.len (AbsLen.reml ((3 : Rat) / 4)))]),
  ("w-4", [(Slot.width, Val.len (AbsLen.reml ((4 : Rat) / 4)))]),
  ("w-5", [(Slot.width, Val.len (AbsLen.reml ((5 : Rat) / 4)))]),
  ("w-6", [(Slot.width, Val.len (AbsLen.reml ((6 : Rat) / 4)))]),
  ("w-8", [(Slot.width, Val.len (AbsLen.reml ((8 : Rat) / 4)))]),
  ("w-10", [(Slot.width, Val.len (AbsLen.reml ((10 : Rat) / 4)))]),
  ("w-12", [(Slot.width, Val.len (AbsLen.reml ((12 : Rat) / 4)))]),
  ("w-16", [(Slot.width, Val.len (AbsLen.reml ((16 : Rat) / 4)))]),
  ("w-20", [(Slot.width, Val.len (AbsLen.reml ((20 : Rat) / 4)))]),
  ("w-24", [(Slot.width, Val.len (AbsLen.reml ((24 : Rat) / 4)))]),
  ("w-32", [(Slot.width, Val.len (AbsLen.reml ((32 : Rat) / 4)))]),
  ("w-40", [(Slot.width, Val.len (AbsLen.reml ((40 : Rat) / 4)))]),
  ("w-48", [(Slot.width, Val.len (AbsLen.reml ((48 : Rat) / 4)))]),
  ("w-56", [(Slot.width, Val.len (AbsLen.reml ((56 : Rat) / 4)))]),
  ("w-64", [(Slot.width, Val.len (AbsLen.reml ((64 : Rat) / 4)))]),
  ("w-72", [(Slot.width, Val.len (AbsLen.reml ((72 : Rat) / 4)))]),
  ("w-80", [(Slot.width, Val.len (AbsLen.reml ((80 : Rat) / 4)))]),
  ("w-96", [(Slot.width, Val.len (AbsLen.reml ((96 : Rat) / 4)))]),
  ("w-auto", [(Slot.width, Val.len AbsLen.auto)]),
  ("w-full", [(Slot.width, Val.len AbsLen.full)]),
  ("w-1/2", [(Slot.width, Val.len (AbsLen.frac 1 2))]),
  ("w-1/3", [(Slot.width, Val.len (AbsLen.frac 1 3))]),
  ("w-2/3", [(Slot.width, Val.len (AbsLen.frac 2 3))]),
  ("w-1/4", [(Slot.width, Val.len (AbsLen.frac 1 4))]),
  ("w-2/4", [(Slot.width, Val.len (AbsLen.frac 2 4))]),
  ("w-3/4", [(Slot.width, Val.len (AbsLen.frac 3 4))]),
  ("w-1/5", [(Slot.width, Val.len (AbsLen.frac 1 5))]),
  ("w-2/5", [(Slot.width, Val.len (AbsLen.frac 2 5))]),
  ("w-3/5", [(Slot.width, Val.len (AbsLen.frac 3 5))]),
  ("w-4/5", [(Slot.width, Val.len (AbsLen.frac 4 5))]),
  ("w-1/6", [(Slot.width, Val.len (AbsLen.frac 1 6))]),
  ("w-5/6", [(Slot.width, Val.len (AbsLen.frac 5 6))]),
  ("w-1/12", [(Slot.width, Val.len (AbsLen.frac 1 12))]),
  ("min-h-0", [(Slot.minHeight, Val.len (AbsLen.reml ((0 : Rat) / 4)))]),
  ("min-h-full", [(Slot.minHeight, Val.len AbsLen.full)]),
  ("min-w-0", [(Slot.minWidth, Val.len (AbsLen.reml ((0 : Rat) / 4)))]),
  ("min-w-full", [(Slot.minWidth, Val.len AbsLen.full)]),
  ("max-h-0", [(Slot.maxHeight, Val.len (AbsLen.reml ((0 : Rat) / 4)))]),
  ("max-h-full", [(Slot.maxHeight, Val.len AbsLen.full)]),
  ("max-w-0", [(Slot.maxWidth, Val.len (AbsLen.reml ((0 : Rat) / 4)))]),
  ("max-w-full", [(Slot.maxWidth, Val.len AbsLen.full)]),
  ("p-0", [(Slot.padT, Val.len (AbsLen.reml ((0 : Rat) / 4))), (Slot.padR, Val.len (AbsLen.reml ((0 : Rat) / 4))), (Slot.padB, Val.len (AbsLen.reml ((0 : Rat) / 4))), (Slot.padL, Val.len (AbsLen.reml ((0 : Rat) / 4)))]),
  ("p-1", [(Slot.padT, Val.len (AbsLen.reml ((1 : Rat) / 4))), (Slot.padR, Val.len (AbsLen.reml ((1 : Rat) / 4))), (Slot.padB, Val.len (AbsLen.reml ((1 : Rat) / 4))), (Slot.padL, Val.len (AbsLen.reml ((1 : Rat) / 4)))]),
  ("p-2", [(Slot.padT, Val.len (AbsLen.reml ((2 : Rat) / 4))), (Slot.padR, Val.len (AbsLen.reml ((2 : Rat) / 4))), (Slot.padB, Val.len (AbsLen.reml ((2 : Rat) / 4))), (Slot.padL, Val.len (AbsLen.reml ((2 : Rat) / 4)))]),
  ("p-3", [(Slot.padT, Val.len (AbsLen.reml ((3 : Rat) / 4))), (Slot.padR, Val.len (AbsLen.reml ((3 : Rat) / 4))), (Slot.padB, Val.len (AbsLen.reml ((3 : Rat) / 4))), (Slot.padL, Val.len (AbsLen.reml ((3 : Rat) / 4)))]),
  ("p-4", [(Slot.padT, Val.len (AbsLen.reml ((4 : Rat) / 4))), (Slot.padR, Val.len (AbsLen.reml ((4 : Rat) / 4))), (Slot.padB, Val.len (AbsLen.reml ((4 : Rat) / 4))), (Slot.padL, Val.len (AbsLen.reml ((4 : Rat) / 4)))]),
  ("p-5", [(Slot.padT, Val.len (AbsLen.reml ((5 : Rat) / 4))), (Slot.padR, Val.len (AbsLen.reml ((5 : Rat) / 4))), (Slot.padB, Val.len (AbsLen.reml ((5 : Rat) / 4))), (Slot.padL, Val.len (AbsLen.reml ((5 : Rat) / 4)))]),
  ("p-6", [(Slot.padT, Val.len (AbsLen.reml ((6 : Rat) / 4))), (Slot.padR, Val.len (AbsLen.reml ((6 : Rat) / 4))), (Slot.padB, Val.len (AbsLen.reml ((6 : Rat) / 4))), (Slot.padL, Val.len (AbsLen.reml ((6 : Rat) / 4)))]),
  ("p-8", [(Slot.padT, Val.len (AbsLen.reml ((8 : Rat) / 4))), (Slot.padR, Val.len (AbsLen.reml ((8 : Rat) / 4))), (Slot.padB, Val.len (AbsLen.reml ((8 : Rat) / 4))), (Slot.padL, Val.len (AbsLen.reml ((8 : Rat) / 4)))]),
  ("p-10", [(Slot.padT, Val.len (AbsLen.reml ((10 : Rat) / 4))), (Slot.padR, Val.len (AbsLen.reml ((10 : Rat) / 4))), (Slot.padB, Val.len (AbsLen.reml ((10 : Rat) / 4))), (Slot.padL, Val.len (AbsLen.reml ((10 : Rat) / 4)))]),
  ("p-12", [(Slot.padT, Val.len (AbsLen.reml ((12 : Rat) / 4))), (Slot.padR, Val.len (AbsLen.reml ((12 : Rat) / 4))), (Slot.padB, Val.len (AbsLen.reml ((12 : Rat) / 4))), (Slot.padL, Val.len (AbsLen.reml ((12 : Rat) / 4)))]),
  ("p-16", [(Slot.padT, Val.len (AbsLen.reml ((16 : Rat) / 4))), (Slot.padR, Val.len (AbsLen.reml ((16 : Rat) / 4))), (Slot.padB, Val.len (AbsLen.reml ((16 : Rat) / 4))), (Slot.padL, Val.len (AbsLen.reml ((16 : Rat) / 4)))]),
  ("p-20", [(Slot.padT, Val.len (AbsLen.reml ((20 : Rat) / 4))), (Slot.padR, Val.len (AbsLen.reml ((20 : Rat) / 4))), (Slot.padB, Val.len (AbsLen.reml ((20 : Rat) / 4))), (Slot.padL, Val.len (AbsLen.reml ((20 : Rat) / 4)))]),
  ("p-24", [(Slot.padT, Val.len (AbsLen.reml ((24 : Rat) / 4))), (Slot.padR, Val.len (AbsLen.reml ((24 : Rat) / 4))), (Slot.padB, Val.len (AbsLen.reml ((24 : Rat) / 4))), (Slot.padL, Val.len (AbsLen.reml ((24 : Rat) / 4)))]),
  ("p-32", [(Slot.padT, Val.len (AbsLen.reml ((32 : Rat) / 4))), (Slot.padR, Val.len (AbsLen.reml ((32 : Rat) / 4))), (Slot.padB, Val.len (AbsLen.reml ((32 : Rat) / 4))), (Slot.padL, Val.len (AbsLen.reml ((32 : Rat) / 4)))]),
  ("p-40", [(Slot.padT, Val.len (AbsLen.reml ((40 : Rat) / 4))), (Slot.padR, Val.len (AbsLen.reml ((40 : Rat) / 4))), (Slot.padB, Val.len (AbsLen.reml ((40 : Rat) / 4))), (Slot.padL, Val.len (AbsLen.reml ((40 : Rat) / 4)))]),
  ("p-48", [(Slot.padT, Val.len (AbsLen.reml ((48 : Rat) / 4))), (Slot.padR, Val.len (AbsLen.reml ((48 : Rat) / 4))), (Slot.padB, Val.len (AbsLen.reml ((48 : Rat) / 4))), (Slot.padL, Val.len (AbsLen.reml ((48 : Rat) / 4)))]),
  ("p-56", [(Slot.padT, Val.len (AbsLen.reml ((56 : Rat) / 4))), (Slot.padR, Val.len (AbsLen.reml ((56 : Rat) / 4))), (Slot.padB, Val.len (AbsLen.reml ((56 : Rat) / 4))), (Slot.padL, Val.len (AbsLen.reml ((56 : Rat) / 4)))]),
  ("p-64", [(Slot.padT, Val.len (AbsLen.reml ((64 : Rat) / 4))), (Slot.padR, Val.len (AbsLen.reml ((64 : Rat) / 4))), (Slot.padB, Val.len (AbsLen.reml ((64 : Rat) / 4))), (Slot.padL, Val.len (AbsLen.reml ((64 : Rat) / 4)))]),
  ("p-72", [(Slot.padT, Val.len (AbsLen.reml ((72 : Rat) / 4))), (Slot.padR, Val.len (AbsLen.reml ((72 : Rat) / 4))), (Slot.padB, Val.len (AbsLen.reml ((72 : Rat) / 4))), (Slot.padL, Val.len (AbsLen.reml ((72 : Rat) / 4)))]),
  ("p-80", [(Slot.padT, Val.len (AbsLen.reml ((80 : Rat) / 4))), (Slot.padR, Val.len (AbsLen.reml ((80 : Rat) / 4))), (Slot.padB, Val.len (AbsLen.reml ((80 : Rat) / 4))), (Slot.padL, Val.len (AbsLen.reml ((80 : Rat) / 4)))]),
  ("p-96", [(Slot.padT, Val.len (AbsLen.reml ((96 : Rat) / 4))), (Slot.padR, Val.len (AbsLen.reml ((96 : Rat) / 4))), (Slot.padB, Val.len (AbsLen.reml ((96 : Rat) / 4))), (Slot.padL, Val.len (AbsLen.reml ((96 : Rat) / 4)))]),
  ("p-px", [(Slot.padT, Val.len (AbsLen.pxl (1 : Rat))), (Slot.padR, Val.len (AbsLen.pxl (1 : Rat))), (Slot.padB, Val.len (AbsLen.pxl (1 : Rat))), (Slot.padL, Val.len (AbsLen.pxl (1 : Rat)))]),
  ("p-1/2", [(Slot.padT, Val.len (AbsLen.frac 1 2)), (Slot.padR, Val.len (AbsLen.frac 1 2)), (Slot.padB, Val.len (AbsLen.frac 1 2)), (Slot.padL, Val.len (AbsLen.frac 1 2))]),
  ("p-1/3", [(Slot.padT, Val.len (AbsLen.frac 1 3)), (Slot.padR, Val.len (AbsLen.frac 1 3)), (Slot.padB, Val.len (AbsLen.frac 1 3)), (Slot.padL, Val.len (AbsLen.frac 1 3))]),
  ("p-2/3", [(Slot.padT, Val.len (AbsLen.frac 2 3)), (Slot.padR, Val.len (AbsLen.frac 2 3)), (Slot.padB, Val.len (AbsLen.frac 2 3)), (Slot.padL, Val.len (AbsLen.frac 2 3))]),
  ("p-1/4", [(Slot.padT, Val.len (AbsLen.frac 1 4)), (Slot.padR, Val.len (AbsLen.frac 1 4)), (Slot.padB, Val.len (AbsLen.frac 1 4)), (Slot.padL, Val.len (AbsLen.frac 1 4))]),
  ("p-2/4", [(Slot.padT, Val.len (AbsLen.frac 2 4)), (Slot.padR, Val.len (AbsLen.frac 2 4)), (Slot.padB, Val.len (AbsLen.frac 2 4)), (Slot.padL, Val.len (AbsLen.frac 2 4))]),
  ("p-3/4", [(Slot.padT, Val.len (AbsLen.frac 3 4)), (Slot.padR, Val.len (AbsLen.frac 3 4)), (Slot.padB, Val.len (AbsLen.frac 3 4)), (Slot.padL, Val.len (AbsLen.frac 3 4))]),
  ("p-1/5", [(Slot.padT, Val.len (AbsLen.frac 1 5)), (Slot.padR, Val.len (AbsLen.frac 1 5)), (Slot.padB, Val.len (AbsLen.frac 1 5)), (Slot.padL, Val.len (AbsLen.frac 1 5))]),
  ("p-2/5", [(Slot.padT, Val.len (AbsLen.frac 2 5)), (Slot.padR, Val.len (AbsLen.frac 2 5)), (Slot.padB, Val.len (AbsLen.frac 2 5)), (Slot.padL, Val.len (AbsLen.frac 2 5))]),
  ("p-3/5", [(Slot.padT, Val.len (AbsLen.frac 3 5)), (Slot.padR, Val.len (AbsLen.frac 3 5)), (Slot.padB, Val.len (AbsLen.frac 3 5)), (Slot.padL, Val.len (AbsLen.frac 3 5))]),
  ("p-4/5", [(Slot.padT, Val.len (AbsLen.frac 4 5)), (Slot.padR, Val.len (AbsLen.frac 4 5)), (Slot.padB, Val.len (AbsLen.frac 4 5)), (Slot.padL, Val.len (AbsLen.frac 4 5))]),
  ("p-1/6", [(Slot.padT, Val.len (AbsLen.frac 1 6)), (Slot.padR, Val.len (AbsLen.frac 1 6)), (Slot.padB, Val.len (AbsLen.frac 1 6)), (Slot.padL, Val.len (AbsLen.frac 1 6))]),
  ("p-5/6", [(Slot.padT, Val.len (AbsLen.frac 5 6)), (Slot.padR, Val.len (AbsLen.frac 5 6)), (Slot.padB, Val.len (AbsLen.frac 5 6)), (Slot.padL, Val.len (AbsLen.frac 5 6))]),
  ("p-1/12", [(Slot.padT, Val.len (AbsLen.frac 1 12)), (Slot.padR, Val.len (AbsLen.frac 1 12)), (Slot.padB, Val.len (AbsLen.frac 1 12)), (Slot.padL, Val.len (AbsLen.frac 1 12))]),
  ("px-0", [(Slot.padL, Val.len (AbsLen.reml ((0 : Rat) / 4))), (Slot.padR, Val.len (AbsLen.reml ((0 : Rat) / 4)))]),
  ("px-1", [(Slot.padL, Val.len (AbsLen.reml ((1 : Rat) / 4))), (Slot.padR, Val.len (AbsLen.reml ((1 : Rat) / 4)))]),
  ("px-2", [(Slot.padL, Val.len (AbsLen.reml ((2 : Rat) / 4))), (Slot.padR, Val.len (AbsLen.reml ((2 : Rat) / 4)))]),
  ("px-3", [(Slot.padL, Val.len (AbsLen.reml ((3 : Rat) / 4))), (Slot.padR, Val.len (AbsLen.reml ((3 : Rat) / 4)))]),
  ("px-4", [(Slot.padL, Val.len (AbsLen.reml ((4 : Rat) / 4))), (Slot.padR, Val.len (AbsLen.reml ((4 : Rat) / 4)))]),
  ("px-5", [(Slot.padL, Val.len (AbsLen.reml ((5 : Rat) / 4))), (Slot.padR, Val.len (AbsLen.reml ((5 : Rat) / 4)))]),
  ("px-6", [(Slot.padL, Val.len (AbsLen.reml ((6 : Rat) / 4))), (Slot.padR, Val.len (AbsLen.reml ((6 : Rat) / 4)))]),
  ("px-8", [(Slot.padL, Val.len (AbsLen.reml ((8 : Rat) / 4))), (Slot.padR, Val.len (AbsLen.reml ((8 : Rat) / 4)))]),
  ("px-10", [(Slot.padL, Val.len (AbsLen.reml ((10 : Rat) / 4))), (Slot.padR, Val.len (AbsLen.reml ((10 : Rat) / 4)))]),
  ("px-12", [(Slot.padL, Val.len (AbsLen.reml ((12 : Rat) / 4))), (Slot.padR, Val.len (AbsLen.reml ((12 : Rat) / 4)))]),
  ("px-16", [(Slot.padL, Val.len (AbsLen.reml ((16 : Rat) / 4))), (Slot.padR, Val.len (AbsLen.reml ((16 : Rat) / 4)))]),
  ("px-20", [(Slot.padL, Val.len (AbsLen.reml ((20 : Rat) / 4))), (Slot.padR, Val.len (AbsLen.reml ((20 : Rat) / 4)))]),
  ("px-24", [(Slot.padL, Val.len (AbsLen.reml ((24 : Rat) / 4))), (Slot.padR, Val.len (AbsLen.reml ((24 : Rat) / 4)))]),
  ("px-32", [(Slot.padL, Val.len (AbsLen.reml ((32 : Rat) / 4))), (Slot.padR, Val.len (AbsLen.reml ((32 : Rat) / 4)))]),
  ("px-40", [(Slot.padL, Val.len (AbsLen.reml ((40 : Rat) / 4))), (Slot.padR, Val.len (AbsLen.reml ((40 : Rat) / 4)))]),
  ("px-48", [(Slot.padL, Val.len (AbsLen.reml ((48 : Rat) / 4))), (Slot.padR, Val.len (AbsLen.reml ((48 : Rat) / 4)))]),
  ("px-56", [(Slot.padL, Val.len (AbsLen.reml ((56 : Rat) / 4))), (Slot.padR, Val.len (AbsLen.reml ((56 : Rat) / 4)))]),
  ("px-64", [(Slot.padL, Val.len (AbsLen.reml ((64 : Rat) / 4))), (Slot.padR, Val.len (AbsLen.reml ((64 : Rat) / 4)))]),
  ("px-72", [(Slot.padL, Val.len (AbsLen.reml ((72 : Rat) / 4))), (Slot.padR, Val.len (AbsLen.reml ((72 : Rat) / 4)))]),
  ("px-80", [(Slot.padL, Val.len (AbsLen.reml ((80 : Rat) / 4))), (Slot.padR, Val.len (AbsLen.reml ((80 : Rat) / 4)))]),
  ("px-96", [(Slot.padL, Val.len (AbsLen.reml ((96 : Rat) / 4))), (Slot.padR, Val.len (AbsLen.reml ((96 : Rat) / 4)))]),
  ("px-px", [(Slot.padL, Val.len (AbsLen.pxl (1 : Rat))), (Slot.padR, Val.len (AbsLen.pxl (1 : Rat)))]),
  ("px-1/2", [(Slot.padL, Val.len (AbsLen.frac 1 2)), (Slot.padR, Val.len (AbsLen.frac 1 2))]),
  ("px-1/3", [(Slot.padL, Val.len (AbsLen.frac 1 3)), (Slot.padR, Val.len (AbsLen.frac 1 3))]),
  ("px-2/3", [(Slot.padL, Val.len (AbsLen.frac 2 3)), (Slot.padR, Val.len (AbsLen.frac 2 3))]),
  ("px-1/4", [(Slot.padL, Val.len (AbsLen.frac 1 4)), (Slot.padR, Val.len (AbsLen.frac 1 4))]),
  ("px-2/4", [(Slot.padL, Val.len (AbsLen.frac 2 4)), (Slot.padR, Val.len (AbsLen.frac 2 4))]),
  ("px-3/4", [(Slot.padL, Val.len (AbsLen.frac 3 4)), (Slot.padR, Val.len (AbsLen.frac 3 4))]),
  ("px-1/5", [(Slot.padL, Val.len (AbsLen.frac 1 5)), (Slot.padR, Val.len (AbsLen.frac 1 5))]),
  ("px-2/5", [(Slot.padL, Val.len (AbsLen.frac 2 5)), (Slot.padR, Val.len (AbsLen.frac 2 5))]),
  ("px-3/5", [(Slot.padL, Val.len (AbsLen.frac 3 5)), (Slot.padR, Val.len (AbsLen.frac 3 5))]),
  ("px-4/5", [(Slot.padL, Val.len (AbsLen.frac 4 5)), (Slot.padR, Val.len (AbsLen.frac 4 5))]),
  ("px-1/6", [(Slot.padL, Val.len (AbsLen.frac 1 6)), (Slot.padR, Val.len (AbsLen.frac 1 6))]),
  ("px-5/6", [(Slot.padL, Val.len (AbsLen.frac 5 6)), (Slot.padR, Val.len (AbsLen.frac 5 6))]),
  ("px-1/12", [(Slot.padL, Val.len (AbsLen.frac 1 12)), (Slot.padR, Val.len (AbsLen.frac 1 12))]),
  ("py-0", [(Slot.padT, Val.len (AbsLen.reml ((0 : Rat) / 4))), (Slot.padB, Val.len (AbsLen.reml ((0 : Rat) / 4)))]),
  ("py-1", [(Slot.padT, Val.len (AbsLen.reml ((1 : Rat) / 4))), (Slot.padB, Val.len (AbsLen.reml ((1 : Rat) / 4)))]),
  ("py-2", [(Slot.padT, Val.len (AbsLen.reml ((2 : Rat) / 4))), (Slot.padB, Val.len (AbsLen.reml ((2 : Rat) / 4)))]),
  ("py-3", [(Slot.padT, Val.len (AbsLen.reml ((3 : Rat) / 4))), (Slot.padB, Val.len (AbsLen.reml ((3 : Rat) / 4)))]),
  ("py-4", [(Slot.padT, Val.len (AbsLen.reml ((4 : Rat) / 4))), (Slot.padB, Val.len (AbsLen.reml ((4 : Rat) / 4)))]),
  ("py-5", [(Slot.padT, Val.len (AbsLen.reml ((5 : Rat) / 4))), (Slot.padB, Val.len (AbsLen.reml ((5 : Rat) / 4)))]),
  ("py-6", [(Slot.padT, Val.len (AbsLen.reml ((6 : Rat) / 4))), (Slot.padB, Val.len (AbsLen.reml ((6 : Rat) / 4)))]),
  ("py-8", [(Slot.padT, Val.len (AbsLen.reml ((8 : Rat) / 4))), (Slot.padB, Val.len (AbsLen.reml ((8 : Rat) / 4)))]),
  ("py-10", [(Slot.padT, Val.len (AbsLen.reml ((10 : Rat) / 4))), (Slot.padB, Val.len (AbsLen.reml ((10 : Rat) / 4)))]),
  ("py-12", [(Slot.padT, Val.len (AbsLen.reml ((12 : Rat) / 4))), (Slot.padB, Val.len (AbsLen.reml ((12 : Rat) / 4)))]),
  ("py-16", [(Slot.padT, Val.len (AbsLen.reml ((16 : Rat) / 4))), (Slot.padB, Val.len (AbsLen.reml ((16 : Rat) / 4)))]),
  ("py-20", [(Slot.padT, Val.len (AbsLen.reml ((20 : Rat) / 4))), (Slot.padB, Val.len (AbsLen.reml ((20 : Rat) / 4)))]),
  ("py-24", [(Slot.padT, Val.len (AbsLen.reml ((24 : Rat) / 4))), (Slot.padB, Val.len (AbsLen.reml ((24 : Rat) / 4)))]),
  ("py-32", [(Slot.padT, Val.len (AbsLen.reml ((32 : Rat) / 4))), (Slot.padB, Val.len (AbsLen.reml ((32 : Rat) / 4)))]),
  ("py-40", [(Slot.padT, Val.len (AbsLen.reml ((40 : Rat) / 4))), (Slot.padB, Val.len (AbsLen.reml ((40 : Rat) / 4)))]),
  ("py-48", [(Slot.padT, Val.len (AbsLen.reml ((48 : Rat) / 4))), (Slot.padB, Val.len (AbsLen.reml ((48 : Rat) / 4)))]),
  ("py-56", [(Slot.padT, Val.len (AbsLen.reml ((56 : Rat) / 4))), (Slot.padB, Val.len (AbsLen.reml ((56 : Rat) / 4)))]),
  ("py-64", [(Slot.padT, Val.len (AbsLen.reml ((64 : Rat) / 4))), (Slot.padB, Val.len (AbsLen.reml ((64 : Rat) / 4)))]),
  ("py-72", [(Slot.padT, Val.len (AbsLen.reml ((72 : Rat) / 4))), (Slot.padB, Val.len (AbsLen.reml ((72 : Rat) / 4)))]),
  ("py-80", [(Slot.padT, Val.len (AbsLen.reml ((80 : Rat) / 4))), (Slot.padB, Val.len (AbsLen.reml ((80 : Rat) / 4)))]),
  ("py-96", [(Slot.padT, Val.len (AbsLen.reml ((96 : Rat) / 4))), (Slot.padB, Val.len (AbsLen.reml ((96 : Rat) / 4)))]),
  ("py-px", [(Slot.padT, Val.len (AbsLen.pxl (1 : Rat))), (Slot.padB, Val.len (AbsLen.pxl (1 : Rat)))]),
  ("py-1/2", [(Slot.padT, Val.len (AbsLen.frac 1 2)), (Slot.padB, Val.len (AbsLen.frac 1 2))]),
  ("py-1/3", [(Slot.padT, Val.len (AbsLen.frac 1 3)), (Slot.padB, Val.len (AbsLen.frac 1 3))]),
  ("py-2/3", [(Slot.padT, Val.len (AbsLen.frac 2 3)), (Slot.padB, Val.len (AbsLen.frac 2 3))]),
  ("py-1/4", [(Slot.padT, Val.len (AbsLen.frac 1 4)), (Slot.padB, Val.len (AbsLen.frac 1 4))]),
  ("py-2/4", [(Slot.padT, Val.len (AbsLen.frac 2 4)), (Slot.padB, Val.len (AbsLen.frac 2 4))]),
  ("py-3/4", [(Slot.padT, Val.len (AbsLen.frac 3 4)), (Slot.padB, Val.len (AbsLen.frac 3 4))]),
  ("py-1/5", [(Slot.padT, Val.len (AbsLen.frac 1 5)), (Slot.padB, Val.len (AbsLen.frac 1 5))]),
  ("py-2/5", [(Slot.padT, Val.len (AbsLen.frac 2 5)), (Slot.padB, Val.len (AbsLen.frac 2 5))]),
  ("py-3/5", [(Slot.padT, Val.len (AbsLen.frac 3 5)), (Slot.padB, Val.len (AbsLen.frac 3 5))]),
  ("py-4/5", [(Slot.padT, Val.len (AbsLen.frac 4 5)), (Slot.padB, Val.len (AbsLen.frac 4 5))]),
  ("py-1/6", [(Slot.padT, Val.len (AbsLen.frac 1 6)), (Slot.padB, Val.len (AbsLen.frac 1 6))]),
  ("py-5/6", [(Slot.padT, Val.len (AbsLen.frac 5 6)), (Slot.padB, Val.len (AbsLen.frac 5 6))]),
  ("py-1/12", [(Slot.padT, Val.len (AbsLen.frac 1 12)), (Slot.padB, Val.len (AbsLen.frac 1 12))]),
  ("m-0", [(Slot.marT, Val.len (AbsLen.reml ((0 : Rat) / 4))), (Slot.marR, Val.len (AbsLen.reml ((0 : Rat) / 4))), (Slot.marB, Val.len (AbsLen.reml ((0 : Rat) / 4))), (Slot.marL, Val.len (AbsLen.reml ((0 : Rat) / 4)))]),
  ("m-1", [(Slot.marT, Val.len (AbsLen.reml ((1 : Rat) / 4))), (Slot.marR, Val.len (AbsLen.reml ((1 : Rat) / 4))), (Slot.marB, Val.len (AbsLen.reml ((1 : Rat) / 4))), (Slot.marL, Val.len (AbsLen.reml ((1 : Rat) / 4)))]),
  ("m-2", [(Slot.marT, Val.len (AbsLen.reml ((2 : Rat) / 4))), (Slot.marR, Val.len (AbsLen.reml ((2 : Rat) / 4))), (Slot.marB, Val.len (AbsLen.reml ((2 : Rat) / 4))), (Slot.marL, Val.len (AbsLen.reml ((2 : Rat) / 4)))]),
  ("m-3", [(Slot.marT, Val.len (AbsLen.reml ((3 : Rat) / 4))), (Slot.marR, Val.len (AbsLen.reml ((3 : Rat) / 4))), (Slot.marB, Val.len (AbsLen.reml ((3 : Rat) / 4))), (Slot.marL, Val.len (AbsLen.reml ((3 : Rat) / 4)))]),
  ("m-4", [(Slot.marT, Val.len (AbsLen.reml ((4 : Rat) / 4))), (Slot.marR, Val.len (AbsLen.reml ((4 : Rat) / 4))), (Slot.marB, Val.len (AbsLen.reml ((4 : Rat) / 4))), (Slot.marL, Val.len (AbsLen.reml ((4 : Rat) / 4)))]),
  ("m-5", [(Slot.marT, Val.len (AbsLen.reml ((5 : Rat) / 4))), (Slot.marR, Val.len (AbsLen.reml ((5 : Rat) / 4))), (Slot.marB, Val.len (AbsLen.reml ((5 : Rat) / 4))), (Slot.marL, Val.len (AbsLen.reml ((5 : Rat) / 4)))]),
  ("m-6", [(Slot.marT, Val.len (AbsLen.reml ((6 : Rat) / 4))), (Slot.marR, Val.len (AbsLen.reml ((6 : Rat) / 4))), (Slot.marB, Val.len (AbsLen.reml ((6 : Rat) / 4))), (Slot.marL, Val.len (AbsLen.reml ((6 : Rat) / 4)))]),
  ("m-8", [(Slot.marT, Val.len (AbsLen.reml ((8 : Rat) / 4))), (Slot.marR, Val.len (AbsLen.reml ((8 : Rat) / 4))), (Slot.marB, Val.len (AbsLen.reml ((8 : Rat) / 4))), (Slot.marL, Val.len (AbsLen.reml ((8 : Rat) / 4)))]),
  ("m-10", [(Slot.marT, Val.len (AbsLen.reml ((10 : Rat) / 4))), (Slot.marR, Val.len (AbsLen.reml ((10 : Rat) / 4))), (Slot.marB, Val.len (AbsLen.reml ((10 : Rat) / 4))), (Slot.marL, Val.len (AbsLen.reml ((10 : Rat) / 4)))]),
  ("m-12", [(Slot.marT, Val.len (AbsLen.reml ((12 : Rat) / 4))), (Slot.marR, Val.len (AbsLen.reml ((12 : Rat) / 4))), (Slot.marB, Val.len (AbsLen.reml ((12 : Rat) / 4))), (Slot.marL, Val.len (AbsLen.reml ((12 : Rat) / 4)))]),
  ("m-16", [(Slot.marT, Val.len (AbsLen.reml ((16 : Rat) / 4))), (Slot.marR, Val.len (AbsLen.reml ((16 : Rat) / 4))), (Slot.marB, Val.len (AbsLen.reml ((16 : Rat) / 4))), (Slot.marL, Val.len (AbsLen.reml ((16 : Rat) / 4)))]),
  ("m-20", [(Slot.marT, Val.len (AbsLen.reml ((20 : Rat) / 4))), (Slot.marR, Val.len (AbsLen.reml ((20 : Rat) / 4))), (Slot.marB, Val.len (AbsLen.reml ((20 : Rat) / 4))), (Slot.marL, Val.len (AbsLen.reml ((20 : Rat) / 4)))]),
  ("m-24", [(Slot.marT, Val.len (AbsLen.reml ((24 : Rat) / 4))), (Slot.marR, Val.len (AbsLen.reml ((24 : Rat) / 4))), (Slot.marB, Val.len (AbsLen.reml ((24 : Rat) / 4))), (Slot.marL, Val.len (AbsLen.reml ((24 : Rat) / 4)))]),
  ("m-32", [(Slot.marT, Val.len (AbsLen.reml ((32 : Rat) / 4))), (Slot.marR, Val.len (AbsLen.reml ((32 : Rat) / 4))), (Slot.marB, Val.len (AbsLen.reml ((32 : Rat) / 4))), (Slot.marL, Val.len (AbsLen.reml ((32 : Rat) / 4)))]),
  ("m-40", [(Slot.marT, Val.len (AbsLen.reml ((40 : Rat) / 4))), (Slot.marR, Val.len (AbsLen.reml ((40 : Rat) / 4))), (Slot.marB, Val.len (AbsLen.reml ((40 : Rat) / 4))), (Slot.marL, Val.len (AbsLen.reml ((40 : Rat) / 4)))]),
  ("m-48", [(Slot.marT, Val.len (AbsLen.reml ((48 : Rat) / 4))), (Slot.marR, Val.len (AbsLen.reml ((48 : Rat) / 4))), (Slot.marB, Val.len (AbsLen.reml ((48 : Rat) / 4))), (Slot.marL, Val.len (AbsLen.reml ((48 : Rat) / 4)))]),
  ("m-56", [(Slot.marT, Val.len (AbsLen.reml ((56 : Rat) / 4))), (Slot.marR, Val.len (AbsLen.reml ((56 : Rat) / 4))), (Slot.marB, Val.len (AbsLen.reml ((56 : Rat) / 4))), (Slot.marL, Val.len (AbsLen.reml ((56 : Rat) / 4)))]),
  ("m-64", [(Slot.marT, Val.len (AbsLen.reml ((64 : Rat) / 4))), (Slot.marR, Val.len (AbsLen.reml ((64 : Rat) / 4))), (Slot.marB, Val.len (AbsLen.reml ((64 : Rat) / 4))), (Slot.marL, Val.len (AbsLen.reml ((64 : Rat) / 4)))]),
  ("m-72", [(Slot.marT, Val.len (AbsLen.reml ((72 : Rat) / 4))), (Slot.marR, Val.len (AbsLen.reml ((72 : Rat) / 4))), (Slot.marB, Val.len (AbsLen.reml ((72 : Rat) / 4))), (Slot.marL, Val.len (AbsLen.reml ((72 : Rat) / 4)))]),
  ("m-80", [(Slot.marT, Val.len (AbsLen.reml ((80 : Rat) / 4))), (Slot.marR, Val.len (AbsLen.reml ((80 : Rat) / 4))), (Slot.marB, Val.len (AbsLen.reml ((80 : Rat) / 4))), (Slot.marL, Val.len (AbsLen.reml ((80 : Rat) / 4)))]),
  ("m-96", [(Slot.marT, Val.len (AbsLen.reml ((96 : Rat) / 4))), (Slot.marR, Val.len (AbsLen.reml ((96 : Rat) / 4))), (Slot.marB, Val.len (AbsLen.reml ((96 : Rat) / 4))), (Slot.marL, Val.len (AbsLen.reml ((96 : Rat) / 4)))]),
  ("m-px", [(Slot.marT, Val.len (AbsLen.pxl (1 : Rat))), (Slot.marR, Val.len (AbsLen.pxl (1 : Rat))), (Slot.marB, Val.len (AbsLen.pxl (1 : Rat))), (Slot.marL, Val.len (AbsLen.pxl (1 : Rat)))]),
  ("m-1/2", [(Slot.marT, Val.len (AbsLen.frac 1 2)), (Slot.marR, Val.len (AbsLen.frac 1 2)), (Slot.marB, Val.len (AbsLen.frac 1 2)), (Slot.marL, Val.len (AbsLen.frac 1 2))]),
  ("m-1/3", [(Slot.marT, Val.len (AbsLen.frac 1 3)), (Slot.marR, Val.len (AbsLen.frac 1 3)), (Slot.marB, Val.len (AbsLen.frac 1 3)), (Slot.marL, Val.len (AbsLen.frac 1 3))]),
  ("m-2/3", [(Slot.marT, Val.len (AbsLen.frac 2 3)), (Slot.marR, Val.len (AbsLen.frac 2 3)), (Slot.marB, Val.len (AbsLen.frac 2 3)), (Slot.marL, Val.len (AbsLen.frac 2 3))]),
  ("m-1/4", [(Slot.marT, Val.len (AbsLen.frac 1 4)), (Slot.marR, Val.len (AbsLen.frac 1 4)), (Slot.marB, Val.len (AbsLen.frac 1 4)), (Slot.marL, Val.len (AbsLen.frac 1 4))]),
  ("m-2/4", [(Slot.marT, Val.len (AbsLen.frac 2 4)), (Slot.marR, Val.len (AbsLen.frac 2 4)), (Slot.marB, Val.len (AbsLen.frac 2 4)), (Slot.marL, Val.len (AbsLen.frac 2 4))]),
  ("m-3/4", [(Slot.marT, Val.len (AbsLen.frac 3 4)), (Slot.marR, Val.len (AbsLen.frac 3 4)), (Slot.marB, Val.len (AbsLen.frac 3 4)), (Slot.marL, Val.len (AbsLen.frac 3 4))]),
  ("m-1/5", [(Slot.marT, Val.len (AbsLen.frac 1 5)), (Slot.marR, Val.len (AbsLen.frac 1 5)), (Slot.marB, Val.len (AbsLen.frac 1 5)), (Slot.marL, Val.len (AbsLen.frac 1 5))]),
  ("m-2/5", [(Slot.marT, Val.len (AbsLen.frac 2 5)), (Slot.marR, Val.len (AbsLen.frac 2 5)), (Slot.marB, Val.len (AbsLen.frac 2 5)), (Slot.marL, Val.len (AbsLen.frac 2 5))]),
  ("m-3/5", [(Slot.marT, Val.len (AbsLen.frac 3 5)), (Slot.marR, Val.len (AbsLen.frac 3 5)), (Slot.marB, Val.len (AbsLen.frac 3 5)), (Slot.marL, Val.len (AbsLen.frac 3 5))]),
  ("m-4/5", [(Slot.marT, Val.len (AbsLen.frac 4 5)), (Slot.marR, Val.len (AbsLen.frac 4 5)), (Slot.marB, Val.len (AbsLen.frac 4 5)), (Slot.marL, Val.len (AbsLen.frac 4 5))]),
  ("m-1/6", [(Slot.marT, Val.len (AbsLen.frac 1 6)), (Slot.marR, Val.len (AbsLen.frac 1 6)), (Slot.marB, Val.len (AbsLen.frac 1 6)), (Slot.marL, Val.len (AbsLen.frac 1 6))]),
  ("m-5/6", [(Slot.marT, Val.len (AbsLen.frac 5 6)), (Slot.marR, Val.len (AbsLen.frac 5 6)), (Slot.marB, Val.len (AbsLen.frac 5 6)), (Slot.marL, Val.len (AbsLen.frac 5 6))]),
  ("m-1/12", [(Slot.marT, Val.len (AbsLen.frac 1 12)), (Slot.marR, Val.len (AbsLen.frac 1 12)), (Slot.marB, Val.len (AbsLen.frac 1 12)), (Slot.marL, Val.len (AbsLen.frac 1 12))]),
  ("mx-0", [(Slot.marL, Val.len (AbsLen.reml ((0 : Rat) / 4))), (Slot.marR, Val.len (AbsLen.reml ((0 : Rat) / 4)))]),
  ("mx-1", [(Slot.marL, Val.len (AbsLen.reml ((1 : Rat) / 4))), (Slot.marR, Val.len (AbsLen.reml ((1 : Rat) / 4)))]),
  ("mx-2", [(Slot.marL, Val.len (AbsLen.reml ((2 : Rat) / 4))), (Slot.marR, Val.len (AbsLen.reml ((2 : Rat) / 4)))]),
  ("mx-3", [(Slot.marL, Val.len (AbsLen.reml ((3 : Rat) / 4))), (Slot.marR, Val.len (AbsLen.reml ((3 : Rat) / 4)))]),
  ("mx-4", [(Slot.marL, Val.len (AbsLen.reml ((4 : Rat) / 4))), (Slot.marR, Val.len (AbsLen.reml ((4 : Rat) / 4)))]),
  ("mx-5", [(Slot.marL, Val.len (AbsLen.reml ((5 : Rat) / 4))), (Slot.marR, Val.len (AbsLen.reml ((5 : Rat) / 4)))]),
  ("mx-6", [(Slot.marL, Val.len (AbsLen.reml ((6 : Rat) / 4))), (Slot.marR, Val.len (AbsLen.reml ((6 : Rat) / 4)))]),
  ("mx-8", [(Slot.marL, Val.len (AbsLen.reml ((8 : Rat) / 4))), (Slot.marR, Val.len (AbsLen.reml ((8 : Rat) / 4)))]),
  ("mx-10", [(Slot.marL, Val.len (AbsLen.reml ((10 : Rat) / 4))), (Slot.marR, Val.len (AbsLen.reml ((10 : Rat) / 4)))]),
  ("mx-12", [(Slot.marL, Val.len (AbsLen.reml ((12 : Rat) / 4))), (Slot.marR, Val.len (AbsLen.reml ((12 : Rat) / 4)))]),
  ("mx-16", [(Slot.marL, Val.len (AbsLen.reml ((16 : Rat) / 4))), (Slot.marR, Val.len (AbsLen.reml ((16 : Rat) / 4)))]),
  ("mx-20", [(Slot.marL, Val.len (AbsLen.reml ((20 : Rat) / 4))), (Slot.marR, Val.len (AbsLen.reml ((20 : Rat) / 4)))]),
  ("mx-24", [(Slot.marL, Val.len (AbsLen.reml ((24 : Rat) / 4))), (Slot.marR, Val.len (AbsLen.reml ((24 : Rat) / 4)))]),
  ("mx-32", [(Slot.marL, Val.len (AbsLen.reml ((32 : Rat) / 4))), (Slot.marR, Val.len (AbsLen.reml ((32 : Rat) / 4)))]),
  ("mx-40", [(Slot.marL, Val.len (AbsLen.reml ((40 : Rat) / 4))), (Slot.marR, Val.len (AbsLen.reml ((40 : Rat) / 4)))]),
  ("mx-48", [(Slot.marL, Val.len (AbsLen.reml ((48 : Rat) / 4))), (Slot.marR, Val.len (AbsLen.reml ((48 : Rat) / 4)))]),
  ("mx-56", [(Slot.marL, Val.len (AbsLen.reml ((56 : Rat) / 4))), (Slot.marR, Val.len (AbsLen.reml ((56 : Rat) / 4)))]),
  ("mx-64", [(Slot.marL, Val.len (AbsLen.reml ((64 : Rat) / 4))), (Slot.marR, Val.len (AbsLen.reml ((64 : Rat) / 4)))]),
  ("mx-72", [(Slot.marL, Val.len (AbsLen.reml ((72 : Rat) / 4))), (Slot.marR, Val.len (AbsLen.reml ((72 : Rat) / 4)))]),
  ("mx-80", [(Slot.marL, Val.len (AbsLen.reml ((80 : Rat) / 4))), (Slot.marR, Val.len (AbsLen.reml ((80 : Rat) / 4)))]),
  ("mx-96", [(Slot.marL, Val.len (AbsLen.reml ((96 : Rat) / 4))), (Slot.marR, Val.len (AbsLen.reml ((96 : Rat) / 4)))]),
  ("mx-px", [(Slot.marL, Val.len (AbsLen.pxl (1 : Rat))), (Slot.marR, Val.len (AbsLen.pxl (1 : Rat)))]),
  ("mx-1/2", [(Slot.marL, Val.len (AbsLen.frac 1 2)), (Slot.marR, Val.len (AbsLen.frac 1 2))]),
  ("mx-1/3", [(Slot.marL, Val.len (AbsLen.frac 1 3)), (Slot.marR, Val.len (AbsLen.frac 1 3))]),
  ("mx-2/3", [(Slot.marL, Val.len (AbsLen.frac 2 3)), (Slot.marR, Val.len (AbsLen.frac 2 3))]),
  ("mx-1/4", [(Slot.marL, Val.len (AbsLen.frac 1 4)), (Slot.marR, Val.len (AbsLen.frac 1 4))]),
  ("mx-2/4", [(Slot.marL, Val.len (AbsLen.frac 2 4)), (Slot.marR, Val.len (AbsLen.frac 2 4))]),
  ("mx-3/4", [(Slot.marL, Val.len (AbsLen.frac 3 4)), (Slot.marR, Val.len (AbsLen.frac 3 4))]),
  ("mx-1/5", [(Slot.marL, Val.len (AbsLen.frac 1 5)), (Slot.marR, Val.len (AbsLen.frac 1 5))]),
  ("mx-2/5", [(Slot.marL, Val.len (AbsLen.frac 2 5)), (Slot.marR, Val.len (AbsLen.frac 2 5))]),
  ("mx-3/5", [(Slot.marL, Val.len (AbsLen.frac 3 5)), (Slot.marR, Val.len (AbsLen.frac 3 5))]),
  ("mx-4/5", [(Slot.marL, Val.len (AbsLen.frac 4 5)), (Slot.marR, Val.len (AbsLen.frac 4 5))]),
  ("mx-1/6", [(Slot.marL, Val.len (AbsLen.frac 1 6)), (Slot.marR, Val.len (AbsLen.frac 1 6))]),
  ("mx-5/6", [(Slot.marL, Val.len (AbsLen.frac 5 6)), (Slot.marR, Val.len (AbsLen.frac 5 6))]),
  ("mx-1/12", [(Slot.marL, Val.len (AbsLen.frac 1 12)), (Slot.marR, Val.len (AbsLen.frac 1 12))]),
  ("my-0", [(Slot.marT, Val.len (AbsLen.reml ((0 : Rat) / 4))), (Slot.marB, Val.len (AbsLen.reml ((0 : Rat) / 4)))]),
  ("my-1", [(Slot.marT, Val.len (AbsLen.reml ((1 : Rat) / 4))), (Slot.marB, Val.len (AbsLen.reml ((1 : Rat) / 4)))]),
  ("my-2", [(Slot.marT, Val.len (AbsLen.reml ((2 : Rat) / 4))), (Slot.marB, Val.len (AbsLen.reml ((2 : Rat) / 4)))]),
  ("my-3", [(Slot.marT, Val.len (AbsLen.reml ((3 : Rat) / 4))), (Slot.marB, Val.len (AbsLen.reml ((3 : Rat) / 4)))]),
  ("my-4", [(Slot.marT, Val.len (AbsLen.reml ((4 : Rat) / 4))), (Slot.marB, Val.len (AbsLen.reml ((4 : Rat) / 4)))]),
  ("my-5", [(Slot.marT, Val.len (AbsLen.reml ((5 : Rat) / 4))), (Slot.marB, Val.len (AbsLen.reml ((5 : Rat) / 4)))]),
  ("my-6", [(Slot.marT, Val.len (AbsLen.reml ((6 : Rat) / 4))), (Slot.marB, Val.len (AbsLen.reml ((6 : Rat) / 4)))]),
  ("my-8", [(Slot.marT, Val.len (AbsLen.reml ((8 : Rat) / 4))), (Slot.marB, Val.len (AbsLen.reml ((8 : Rat) / 4)))]),
  ("my-10", [(Slot.marT, Val.len (AbsLen.reml ((10 : Rat) / 4))), (Slot.marB, Val.len (AbsLen.reml ((10 : Rat) / 4)))]),
  ("my-12", [(Slot.marT, Val.len (AbsLen.reml ((12 : Rat) / 4))), (Slot.marB, Val.len (AbsLen.reml ((12 : Rat) / 4)))]),
  ("my-16", [(Slot.marT, Val.len (AbsLen.reml ((16 : Rat) / 4))), (Slot.marB, Val.len (AbsLen.reml ((16 : Rat) / 4)))]),
  ("my-20", [(Slot.marT, Val.len (AbsLen.reml ((20 : Rat) / 4))), (Slot.marB, Val.len (AbsLen.reml ((20 : Rat) / 4)))]),
  ("my-24", [(Slot.marT, Val.len (AbsLen.reml ((24 : Rat) / 4))), (Slot.marB, Val.len (AbsLen.reml ((24 : Rat) / 4)))]),
  ("my-32", [(Slot.marT, Val.len (AbsLen.reml ((32 : Rat) / 4))), (Slot.marB, Val.len (AbsLen.reml ((32 : Rat) / 4)))]),
  ("my-40", [(Slot.marT, Val.len (AbsLen.reml ((40 : Rat) / 4))), (Slot.marB, Val.len (AbsLen.reml ((40 : Rat) / 4)))]),
  ("my-48", [(Slot.marT, Val.len (AbsLen.reml ((48 : Rat) / 4))), (Slot.marB, Val.len (AbsLen.reml ((48 : Rat) / 4)))]),
  ("my-56", [(Slot.marT, Val.len (AbsLen.reml ((56 : Rat) / 4))), (Slot.marB, Val.len (AbsLen.reml ((56 : Rat) / 4)))]),
  ("my-64", [(Slot.marT, Val.len (AbsLen.reml ((64 : Rat) / 4))), (Slot.marB, Val.len (AbsLen.reml ((64 : Rat) / 4)))]),
  ("my-72", [(Slot.marT, Val.len (AbsLen.reml ((72 : Rat) / 4))), (Slot.marB, Val.len (AbsLen.reml ((72 : Rat) / 4)))]),
  ("my-80", [(Slot.marT, Val.len (AbsLen.reml ((80 : Rat) / 4))), (Slot.marB, Val.len (AbsLen.reml ((80 : Rat) / 4)))]),
  ("my-96", [(Slot.marT, Val.len (AbsLen.reml ((96 : Rat) / 4))), (Slot.marB, Val.len (AbsLen.reml ((96 : Rat) / 4)))]),
  ("my-px", [(Slot.marT, Val.len (AbsLen.pxl (1 : Rat))), (Slot.marB, Val.len (AbsLen.pxl (1 : Rat)))]),
  ("my-1/2", [(Slot.marT, Val.len (AbsLen.frac 1 2)), (Slot.marB, Val.len (AbsLen.frac 1 2))]),
  ("my-1/3", [(Slot.marT, Val.len (AbsLen.frac 1 3)), (Slot.marB, Val.len (AbsLen.frac 1 3))]),
  ("my-2/3", [(Slot.marT, Val.len (AbsLen.frac 2 3)), (Slot.marB, Val.len (AbsLen.frac 2 3))]),
  ("my-1/4", [(Slot.marT, Val.len (AbsLen.frac 1 4)), (Slot.marB, Val.len (AbsLen.frac 1 4))]),
  ("my-2/4", [(Slot.marT, Val.len (AbsLen.frac 2 4)), (Slot.marB, Val.len (AbsLen.frac 2 4))]),
  ("my-3/4", [(Slot.marT, Val.len (AbsLen.frac 3 4)), (Slot.marB, Val.len (AbsLen.frac 3 4))]),
  ("my-1/5", [(Slot.marT, Val.len (AbsLen.frac 1 5)), (Slot.marB, Val.len (AbsLen.frac 1 5))]),
  ("my-2/5", [(Slot.marT, Val.len (AbsLen.frac 2 5)), (Slot.marB, Val.len (AbsLen.frac 2 5))]),
  ("my-3/5", [(Slot.marT, Val.len (AbsLen.frac 3 5)), (Slot.marB, Val.len (AbsLen.frac 3 5))]),
  ("my-4/5", [(Slot.marT, Val.len (AbsLen.frac 4 5)), (Slot.marB, Val.len (AbsLen.frac 4 5))]),
  ("my-1/6", [(Slot.marT, Val.len (AbsLen.frac 1 6)), (Slot.marB, Val.len (AbsLen.frac 1 6))]),
  ("my-5/6", [(Slot.marT, Val.len (AbsLen.frac 5 6)), (Slot.marB, Val.len (AbsLen.frac 5 6))]),
  ("my-1/12", [(Slot.marT, Val.len (AbsLen.frac 1 12)), (Slot.marB, Val.len (AbsLen.frac 1 12))]),
  ("m-auto", [(Slot.marT, Val.len AbsLen.auto), (Slot.marR, Val.len AbsLen.auto), (Slot.marB, Val.len AbsLen.auto), (Slot.marL, Val.len AbsLen.auto)]),
  ("m-full", [(Slot.marT, Val.len AbsLen.full), (Slot.marR, Val.len AbsLen.full), (Slot.marB, Val.len AbsLen.full), (Slot.marL, Val.len AbsLen.full)]),
  ("mt-0", [(Slot.marT, Val.len (AbsLen.reml ((0 : Rat) / 4)))]),
  ("mt-1", [(Slot.marT, Val.len (AbsLen.reml ((1 : Rat) / 4)))]),
  ("mt-2", [(Slot.marT, Val.len (AbsLen.reml ((2 : Rat) / 4)))]),
  ("mt-3", [(Slot.marT, Val.len (AbsLen.reml ((3 : Rat) / 4)))]),
  ("mt-4", [(Slot.marT, Val.len (AbsLen.reml ((4 : Rat) / 4)))]),
  ("mt-5", [(Slot.marT, Val.len (AbsLen.reml ((5 : Rat) / 4)))]),
  ("mt-6", [(Slot.marT, Val.len (AbsLen.reml ((6 : Rat) / 4)))]),
  ("mt-8", [(Slot.marT, Val.len (AbsLen.reml ((8 : Rat) / 4)))]),
  ("mt-10", [(Slot.marT, Val.len (AbsLen.reml ((10 : Rat) / 4)))]),
  ("mt-12", [(Slot.marT, Val.len (AbsLen.reml ((12 : Rat) / 4)))]),
  ("mt-16", [(Slot.marT, Val.len (AbsLen.reml ((16 : Rat) / 4)))]),
  ("mt-20", [(Slot.marT, Val.len (AbsLen.reml ((20 : Rat) / 4)))]),
  ("mt-24", [(Slot.marT, Val.len (AbsLen.reml ((24 : Rat) / 4)))]),
  ("mt-32", [(Slot.marT, Val.len (AbsLen.reml ((32 : Rat) / 4)))]),
  ("mt-40", [(Slot.marT, Val.len (AbsLen.reml ((40 : Rat) / 4)))]),
  ("mt-48", [(Slot.marT, Val.len (AbsLen.reml ((48 : Rat) / 4)))]),
  ("mt-56", [(Slot.marT, Val.len (AbsLen.reml ((56 : Rat) / 4)))]),
  ("mt-64", [(Slot.marT, Val.len (AbsLen.reml ((64 : Rat) / 4)))]),
  ("mt-72", [(Slot.marT, Val.len (AbsLen.reml ((72 : Rat) / 4)))]),
  ("mt-80", [(Slot.marT, Val.len (AbsLen.reml ((80 : Rat) / 4)))]),
  ("mt-96", [(Slot.marT, Val.len (AbsLen.reml ((96 : Rat) / 4)))]),
  ("mt-px", [(Slot.marT, Val.len (AbsLen.pxl (1 : Rat)))]),
  ("mt-1/2", [(Slot.marT, Val.len (AbsLen.frac 1 2))]),
  ("mt-1/3", [(Slot.marT, Val.len (AbsLen.frac 1 3))]),
  ("mt-2/3", [(Slot.marT, Val.len (AbsLen.frac 2 3))]),
  ("mt-1/4", [(Slot.marT, Val.len (AbsLen.frac 1 4))]),
  ("mt-2/4", [(Slot.marT, Val.len (AbsLen.frac 2 4))]),
  ("mt-3/4", [(Slot.marT, Val.len (AbsLen.frac 3 4))]),
  ("mt-1/5", [(Slot.marT, Val.len (AbsLen.frac 1 5))]),
  ("mt-2/5", [(Slot.marT, Val.len (AbsLen.frac 2 5))]),
  ("mt-3/5", [(Slot.marT, Val.len (AbsLen.frac 3 5))]),
  ("mt-4/5", [(Slot.marT, Val.len (AbsLen.frac 4 5))]),
  ("mt-1/6", [(Slot.marT, Val.len (AbsLen.frac 1 6))]),
  ("mt-5/6", [(Slot.marT, Val.len (AbsLen.frac 5 6))]),
  ("mt-1/12", [(Slot.marT, Val.len (AbsLen.frac 1 12))]),
  ("mr-0", [(Slot.marR, Val.len (AbsLen.reml ((0 : Rat) / 4)))]),
  ("mr-1", [(Slot.marR, Val.len (AbsLen.reml ((1 : Rat) / 4)))]),
  ("mr-2", [(Slot.marR, Val.len (AbsLen.reml ((2 : Rat) / 4)))]),
  ("mr-3", [(Slot.marR, Val.len (AbsLen.reml ((3 : Rat) / 4)))]),
  ("mr-4", [(Slot.marR, Val.len (AbsLen.reml ((4 : Rat) / 4)))]),
  ("mr-5", [(Slot.marR, Val.len (AbsLen.reml ((5 : Rat) / 4)))]),
  ("mr-6", [(Slot.marR, Val.len (AbsLen.reml ((6 : Rat) / 4)))]),
  ("mr-8", [(Slot.marR, Val.len (AbsLen.reml ((8 : Rat) / 4)))]),
  ("mr-10", [(Slot.marR, Val.len (AbsLen.reml ((10 : Rat) / 4)))]),
  ("mr-12", [(Slot.marR, Val.len (AbsLen.reml ((12 : Rat) / 4)))]),
  ("mr-16", [(Slot.marR, Val.len (AbsLen.reml ((16 : Rat) / 4)))]),
  ("mr-20", [(Slot.marR, Val.len (AbsLen.reml ((20 : Rat) / 4)))]),
  ("mr-24", [(Slot.marR, Val.len (AbsLen.reml ((24 : Rat) / 4)))]),
  ("mr-32", [(Slot.marR, Val.len (AbsLen.reml ((32 : Rat) / 4)))]),
  ("mr-40", [(Slot.marR, Val.len (AbsLen.reml ((40 : Rat) / 4)))]),
  ("mr-48", [(Slot.marR, Val.len (AbsLen.reml ((48 : Rat) / 4)))]),
  ("mr-56", [(Slot.marR, Val.len (AbsLen.reml ((56 : Rat) / 4)))]),
  ("mr-64", [(Slot.marR, Val.len (AbsLen.reml ((64 : Rat) / 4)))]),
  ("mr-72", [(Slot.marR, Val.len (AbsLen.reml ((72 : Rat) / 4)))]),
  ("mr-80", [(Slot.marR, Val.len (AbsLen.reml ((80 : Rat) / 4)))]),
  ("mr-96", [(Slot.marR, Val.len (AbsLen.reml ((96 : Rat) / 4)))]),
  ("mr-px", [(Slot.marR, Val.len (AbsLen.pxl (1 : Rat)))]),
  ("mr-1/2", [(Slot.marR, Val.len (AbsLen.frac 1 2))]),
  ("mr-1/3", [(Slot.marR, Val.len (AbsLen.frac 1 3))]),
  ("mr-2/3", [(Slot.marR, Val.len (AbsLen.frac 2 3))]),
  ("mr-1/4", [(Slot.marR, Val.len (AbsLen.frac 1 4))]),
  ("mr-2/4", [(Slot.marR, Val.len (AbsLen.frac 2 4))]),
  ("mr-3/4", [(Slot.marR, Val.len (AbsLen.frac 3 4))]),
  ("mr-1/5", [(Slot.marR, Val.len (AbsLen.frac 1 5))]),
  ("mr-2/5", [(Slot.marR, Val.len (AbsLen.frac 2 5))]),
  ("mr-3/5", [(Slot.marR, Val.len (AbsLen.frac 3 5))]),
  ("mr-4/5", [(Slot.marR, Val.len (AbsLen.frac 4 5))]),
  ("mr-1/6", [(Slot.marR, Val.len (AbsLen.frac 1 6))]),
  ("mr-5/6", [(Slot.marR, Val.len (AbsLen.frac 5 6))]),
  ("mr-1/12", [(Slot.marR, Val.len (AbsLen.frac 1 12))]),
  ("mb-0", [(Slot.marB, Val.len (AbsLen.reml ((0 : Rat) / 4)))]),
  ("mb-1", [(Slot.marB, Val.len (AbsLen.reml ((1 : Rat) / 4)))]),
  ("mb-2", [(Slot.marB, Val.len (AbsLen.reml ((2 : Rat) / 4)))]),
  ("mb-3", [(Slot.marB, Val.len (AbsLen.reml ((3 : Rat) / 4)))]),
  ("mb-4", [(Slot.marB, Val.len (AbsLen.reml ((4 : Rat) / 4)))]),
  ("mb-5", [(Slot.marB, Val.len (AbsLen.reml ((5 : Rat) / 4)))]),
  ("mb-6", [(Slot.marB, Val.len (AbsLen.reml ((6 : Rat) / 4)))]),
  ("mb-8", [(Slot.marB, Val.len (AbsLen.reml ((8 : Rat) / 4)))]),
  ("mb-10", [(Slot.marB, Val.len (AbsLen.reml ((10 : Rat) / 4)))]),
  ("mb-12", [(Slot.marB, Val.len (AbsLen.reml ((12 : Rat) / 4)))]),
  ("mb-16", [(Slot.marB, Val.len (AbsLen.reml ((16 : Rat) / 4)))]),
  ("mb-20", [(Slot.marB, Val.len (AbsLen.reml ((20 : Rat) / 4)))]),
  ("mb-24", [(Slot.marB, Val.len (AbsLen.reml ((24 : Rat) / 4)))]),
  ("mb-32", [(Slot.marB, Val.len (AbsLen.reml ((32 : Rat) / 4)))]),
  ("mb-40", [(Slot.marB, Val.len (AbsLen.reml ((40 : Rat) / 4)))]),
  ("mb-48", [(Slot.marB, Val.len (AbsLen.reml ((48 : Rat) / 4)))]),
  ("mb-56", [(Slot.marB, Val.len (AbsLen.reml ((56 : Rat) / 4)))]),
  ("mb-64", [(Slot.marB, Val.len (AbsLen.reml ((64 : Rat) / 4)))]),
  ("mb-72", [(Slot.marB, Val.len (AbsLen.reml ((72 : Rat) / 4)))]),
  ("mb-80", [(Slot.marB, Val.len (AbsLen.reml ((80 : Rat) / 4)))]),
  ("mb-96", [(Slot.marB, Val.len (AbsLen.reml ((96 : Rat) / 4)))]),
  ("mb-px", [(Slot.marB, Val.len (AbsLen.pxl (1 : Rat)))]),
  ("mb-1/2", [(Slot.marB, Val.len (AbsLen.frac 1 2))]),
  ("mb-1/3", [(Slot.marB, Val.len (AbsLen.frac 1 3))]),
  ("mb-2/3", [(Slot.marB, Val.len (AbsLen.frac 2 3))]),
  ("mb-1/4", [(Slot.marB, Val.len (AbsLen.frac 1 4))]),
  ("mb-2/4", [(Slot.marB, Val.len (AbsLen.frac 2 4))]),
  ("mb-3/4", [(Slot.marB, Val.len (AbsLen.frac 3 4))]),
  ("mb-1/5", [(Slot.marB, Val.len (AbsLen.frac 1 5))]),
  ("mb-2/5", [(Slot.marB, Val.len (AbsLen.frac 2 5))]),
  ("mb-3/5", [(Slot.marB, Val.len (AbsLen.frac 3 5))]),
  ("mb-4/5", [(Slot.marB, Val.len (AbsLen.frac 4 5))]),
  ("mb-1/6", [(Slot.marB, Val.len (AbsLen.frac 1 6))]),
  ("mb-5/6", [(Slot.marB, Val.len (AbsLen.frac 5 6))]),
  ("mb-1/12", [(Slot.marB, Val.len (AbsLen.frac 1 12))]),
  ("ml-0", [(Slot.marL, Val.len (AbsLen.reml ((0 : Rat) / 4)))]),
  ("ml-1", [(Slot.marL, Val.len (AbsLen.reml ((1 : Rat) / 4)))]),
  ("ml-2", [(Slot.marL, Val.len (AbsLen.reml ((2 : Rat) / 4)))]),
  ("ml-3", [(Slot.marL, Val.len (AbsLen.reml ((3 : Rat) / 4)))]),
  ("ml-4", [(Slot.marL, Val.len (AbsLen.reml ((4 : Rat) / 4)))]),
  ("ml-5", [(Slot.marL, Val.len (AbsLen.reml ((5 : Rat) / 4)))]),
  ("ml-6", [(Slot.marL, Val.len (AbsLen.reml ((6 : Rat) / 4)))]),
  ("ml-8", [(Slot.marL, Val.len (AbsLen.reml ((8 : Rat) / 4)))]),
  ("ml-10", [(Slot.marL, Val.len (AbsLen.reml ((10 : Rat) / 4)))]),
  ("ml-12", [(Slot.marL, Val.len (AbsLen.reml ((12 : Rat) / 4)))]),
  ("ml-16", [(Slot.marL, Val.len (AbsLen.reml ((16 : Rat) / 4)))]),
  ("ml-20", [(Slot.marL, Val.len (AbsLen.reml ((20 : Rat) / 4)))]),
  ("ml-24", [(Slot.marL, Val.len (AbsLen.reml ((24 : Rat) / 4)))]),
  ("ml-32", [(Slot.marL, Val.len (AbsLen.reml ((32 : Rat) / 4)))]),
  ("ml-40", [(Slot.marL, Val.len (AbsLen.reml ((40 : Rat) / 4)))]),
  ("ml-48", [(Slot.marL, Val.len (AbsLen.reml ((48 : Rat) / 4)))]),
  ("ml-56", [(Slot.marL, Val.len (AbsLen.reml ((56 : Rat) / 4)))]),
  ("ml-64", [(Slot.marL, Val.len (AbsLen.reml ((64 : Rat) / 4)))]),
  ("ml-72", [(Slot.marL, Val.len (AbsLen.reml ((72 : Rat) / 4)))]),
  ("ml-80", [(Slot.marL, Val.len (AbsLen.reml ((80 : Rat) / 4)))]),
  ("ml-96", [(Slot.marL, Val.len (AbsLen.reml ((96 : Rat) / 4)))]),
  ("ml-px", [(Slot.marL, Val.len (AbsLen.pxl (1 : Rat)))]),
  ("ml-1/2", [(Slot.marL, Val.len (AbsLen.frac 1 2))]),
  ("ml-1/3", [(Slot.marL, Val.len (AbsLen.frac 1 3))]),
  ("ml-2/3", [(Slot.marL, Val.len (AbsLen.frac 2 3))]),
  ("ml-1/4", [(Slot.marL, Val.len (AbsLen.frac 1 4))]),
  ("ml-2/4", [(Slot.marL, Val.len (AbsLen.frac 2 4))]),
  ("ml-3/4", [(Slot.marL, Val.len (AbsLen.frac 3 4))]),
  ("ml-1/5", [(Slot.marL, Val.len (AbsLen.frac 1 5))]),
  ("ml-2/5", [(Slot.marL, Val.len (AbsLen.frac 2 5))]),
  ("ml-3/5", [(Slot.marL, Val.len (AbsLen.frac 3 5))]),
  ("ml-4/5", [(Slot.marL, Val.len (AbsLen.frac 4 5))]),
  ("ml-1/6", [(Slot.marL, Val.len (AbsLen.frac 1 6))]),
  ("ml-5/6", [(Slot.marL, Val.len (AbsLen.frac 5 6))]),
  ("ml-1/12", [(Slot.marL, Val.len (AbsLen.frac 1 12))]),
  ("size-0", [(Slot.height, Val.len (AbsLen.reml ((0 : Rat) / 4))), (Slot.width, Val.len (AbsLen.reml ((0 : Rat) / 4)))]),
  ("size-0.5", [(Slot.height, Val.len (AbsLen.reml ((1 : Rat) / 8))), (Slot.width, Val.len (AbsLen.reml ((1 : Rat) / 8)))]),
  ("size-1", [(Slot.height, Val.len (AbsLen.reml ((1 : Rat) / 4))), (Slot.width, Val.len (AbsLen.reml ((1 : Rat) / 4)))]),
  ("size-1.5", [(Slot.height, Val.len (AbsLen.reml ((3 : Rat) / 8))), (Slot.width, Val.len (AbsLen.reml ((3 : Rat) / 8)))]),
  ("size-2", [(Slot.height, Val.len (AbsLen.reml ((2 : Rat) / 4))), (Slot.width, Val.len (AbsLen.reml ((2 : Rat) / 4)))]),
  ("size-2.5", [(Slot.height, Val.len (AbsLen.reml ((5 : Rat) / 8))), (Slot.width, Val.len (AbsLen.reml ((5 : Rat) / 8)))]),
  ("size-3", [(Slot.height, Val.len (AbsLen.reml ((3 : Rat) / 4))), (Slot.width, Val.len (AbsLen.reml ((3 : Rat) / 4)))]),
  ("size-3.5", [(Slot.height, Val.len (AbsLen.reml ((7 : Rat) / 8))), (Slot.width, Val.len (AbsLen.reml ((7 : Rat) / 8)))]),
  ("size-4", [(Slot.height, Val.len (AbsLen.reml ((4 : Rat) / 4))), (Slot.width, Val.len (AbsLen.reml ((4 : Rat) / 4)))]),
  ("size-5", [(Slot.height, Val.len (AbsLen.reml ((5 : Rat) / 4))), (Slot.width, Val.len (AbsLen.reml ((5 : Rat) / 4)))]),
  ("size-6", [(Slot.height, Val.len (AbsLen.reml ((6 : Rat) / 4))), (Slot.width, Val.len (AbsLen.reml ((6 : Rat) / 4)))]),
  ("size-8", [(Slot.height, Val.len (AbsLen.reml ((8 : Rat) / 4))), (Slot.width, Val.len (AbsLen.reml ((8 : Rat) / 4)))]),
  ("size-10", [(Slot.height, Val.len (AbsLen.reml ((10 : Rat) / 4))), (Slot.width, Val.len (AbsLen.reml ((10 : Rat) / 4)))]),
  ("size-12", [(Slot.height, Val.len (AbsLen.reml ((12 : Rat) / 4))), (Slot.width, Val.len (AbsLen.reml ((12 : Rat) / 4)))]),
  ("size-16", [(Slot.height, Val.len (AbsLen.reml ((16 : Rat) / 4))), (Slot.width, Val.len (AbsLen.reml ((16 : Rat) / 4)))]),
  ("size-20", [(Slot.height, Val.len (AbsLen.reml ((20 : Rat) / 4))), (Slot.width, Val.len (AbsLen.reml ((20 : Rat) / 4)))]),
  ("size-24", [(Slot.height, Val.len (AbsLen.reml ((24 : Rat) / 4))), (Slot.width, Val.len (AbsLen.reml ((24 : Rat) / 4)))]),
  ("size-32", [(Slot.height, Val.len (AbsLen.reml ((32 : Rat) / 4))), (Slot.width, Val.len (AbsLen.reml ((32 : Rat) / 4)))]),
  ("size-40", [(Slot.height, Val.len (AbsLen.reml ((40 : Rat) / 4))), (Slot.width, Val.len (AbsLen.reml ((40 : Rat) / 4)))]),
  ("size-48", [(Slot.height, Val.len (AbsLen.reml ((48 : Rat) / 4))), (Slot.width, Val.len (AbsLen.reml ((48 : Rat) / 4)))]),
  ("size-56", [(Slot.height, Val.len (AbsLen.reml ((56 : Rat) / 4))), (Slot.width, Val.len (AbsLen.reml ((56 : Rat) / 4)))]),
  ("size-64", [(Slot.height, Val.len (AbsLen.reml ((64 : Rat) / 4))), (Slot.width, Val.len (AbsLen.reml ((64 : Rat) / 4)))]),
  ("size-72", [(Slot.height, Val.len (AbsLen.reml ((72 : Rat) / 4))), (Slot.width, Val.len (AbsLen.reml ((72 : Rat) / 4)))]),
  ("size-80", [(Slot.height, Val.len (AbsLen.reml ((80 : Rat) / 4))), (Slot.width, Val.len (AbsLen.reml ((80 : Rat) / 4)))]),
  ("size-96", [(Slot.height, Val.len (AbsLen.reml ((96 : Rat) / 4))), (Slot.width, Val.len (AbsLen.reml ((96 : Rat) / 4)))]),
  ("size-1/2", [(Slot.height, Val.len (AbsLen.frac 1 2)), (Slot.width, Val.len (AbsLen.frac 1 2))]),
  ("size-1/3", [(Slot.height, Val.len (AbsLen.frac 1 3)), (Slot.width, Val.len (AbsLen.frac 1 3))]),
  ("size-2/3", [(Slot.height, Val.len (AbsLen.frac 2 3)), (Slot.width, Val.len (AbsLen.frac 2 3))]),
  ("size-1/4", [(Slot.height, Val.len (AbsLen.frac 1 4)), (Slot.width, Val.len (AbsLen.frac 1 4))]),
  ("size-2/4", [(Slot.height, Val.len (AbsLen.frac 2 4)), (Slot.width, Val.len (AbsLen.frac 2 4))]),
  ("size-3/4", [(Slot.height, Val.len (AbsLen.frac 3 4)), (Slot.width, Val.len (AbsLen.frac 3 4))]),
  ("size-1/5", [(Slot.height, Val.len (AbsLen.frac 1 5)), (Slot.width, Val.len (AbsLen.frac 1 5))]),
  ("size-2/5", [(Slot.height, Val.len (AbsLen.frac 2 5)), (Slot.width, Val.len (AbsLen.frac 2 5))]),
  ("size-3/5", [(Slot.height, Val.len (AbsLen.frac 3 5)), (Slot.width, Val.len (AbsLen.frac 3 5))]),
  ("size-4/5", [(Slot.height, Val.len (AbsLen.frac 4 5)), (Slot.width, Val.len (AbsLen.frac 4 5))]),
  ("size-1/6", [(Slot.height, Val.len (AbsLen.frac 1 6)), (Slot.width, Val.len (AbsLen.frac 1 6))]),
  ("size-5/6", [(Slot.height, Val.len (AbsLen.frac 5 6)), (Slot.width, Val.len (AbsLen.frac 5 6))]),
  ("size-1/12", [(Slot.height, Val.len (AbsLen.frac 1 12)), (Slot.width, Val.len (AbsLen.frac 1 12))]),
  ("size-full", [(Slot.height, Val.len AbsLen.full), (Slot.width, Val.len AbsLen.full)]),
  ("size-auto", [(Slot.height, Val.len AbsLen.auto), (Slot.width, Val.len AbsLen.auto)]),
  ("border-solid", [(Slot.borT, Val.len (AbsLen.pxl (1 : Rat))), (Slot.borR, Val.len (AbsLen.pxl (1 : Rat))), (Slot.borB, Val.len (AbsLen.pxl (1 : Rat))), (Slot.borL, Val.len (AbsLen.pxl (1 : Rat)))]),
  ("border-0", [(Slot.borT, Val.len (AbsLen.pxl (0 : Rat))), (Slot.borR, Val.len (AbsLen.pxl (0 : Rat))), (Slot.borB, Val.len (AbsLen.pxl (0 : Rat))), (Slot.borL, Val.len (AbsLen.pxl (0 : Rat)))]),
  ("border-2", [(Slot.borT, Val.len (AbsLen.pxl (2 : Rat))), (Slot.borR, Val.len (AbsLen.pxl (2 : Rat))), (Slot.borB, Val.len (AbsLen.pxl (2 : Rat))), (Slot.borL, Val.len (AbsLen.pxl (2 : Rat)))]),
  ("border-4", [(Slot.borT, Val.len (AbsLen.pxl (4 : Rat))), (Slot.borR, Val.len (AbsLen.pxl (4 : Rat))), (Slot.borB, Val.len (AbsLen.pxl (4 : Rat))), (Slot.borL, Val.len (AbsLen.pxl (4 : Rat)))]),
  ("border-8", [(Slot.borT, Val.len (AbsLen.pxl (8 : Rat))), (Slot.borR, Val.len (AbsLen.pxl (8 : Rat))), (Slot.borB, Val.len (AbsLen.pxl (8 : Rat))), (Slot.borL, Val.len (AbsLen.pxl (8 : Rat)))]),
  ("border", [(Slot.borT, Val.len (AbsLen.pxl (1 : Rat))), (Slot.borR, Val.len (AbsLen.pxl (1 : Rat))), (Slot.borB, Val.len (AbsLen.pxl (1 : Rat))), (Slot.borL, Val.len (AbsLen.pxl (1 : Rat)))]),
  ("border-t-0", [(Slot.borT, Val.len (AbsLen.pxl (0 : Rat)))]),
  ("border-t-2", [(Slot.borT, Val.len (AbsLen.pxl (2 : Rat)))]),
  ("border-t-4", [(Slot.borT, Val.len (AbsLen.pxl (4 : Rat)))]),
  ("border-t-8", [(Slot.borT, Val.len (AbsLen.pxl (8 : Rat)))]),
  ("border-t", [(Slot.borT, Val.len (AbsLen.pxl (1 : Rat)))]),
  ("border-r-0", [(Slot.borR, Val.len (AbsLen.pxl (0 : Rat)))]),
  ("border-r-2", [(Slot.borR, Val.len (AbsLen.pxl (2 : Rat)))]),
  ("border-r-4", [(Slot.borR, Val.len (AbsLen.pxl (4 : Rat)))]),
  ("border-r-8", [(Slot.borR, Val.len (AbsLen.pxl (8 : Rat)))]),
  ("border-r", [(Slot.borR, Val.len (AbsLen.pxl (1 : Rat)))]),
  ("border-b-0", [(Slot.borB, Val.len (AbsLen.pxl (0 : Rat)))]),
  ("border-b-2", [(Slot.borB, Val.len (AbsLen.pxl (2 : Rat)))]),
  ("border-b-4", [(Slot.borB, Val.len (AbsLen.pxl (4 : Rat)))]),
  ("border-b-8", [(Slot.borB, Val.len (AbsLen.pxl (8 : Rat)))]),
  ("border-b", [(Slot.borB, Val.len (AbsLen.pxl (1 : Rat)))]),
  ("border-l-0", [(Slot.borL, Val.len (AbsLen.pxl (0 : Rat)))]),
  ("border-l-2", [(Slot.borL, Val.len (AbsLen.pxl (2 : Rat)))]),
  ("border-l-4", [(Slot.borL, Val.len (AbsLen.pxl (4 : Rat)))]),
  ("border-l-8", [(Slot.borL, Val.len (AbsLen.pxl (8 : Rat)))]),
  ("border-l", [(Slot.borL, Val.len (AbsLen.pxl (1 : Rat)))]),
  ("border-x-0", [(Slot.borL, Val.len (AbsLen.pxl (0 : Rat))), (Slot.borR, Val.len (AbsLen.pxl (0 : Rat)))]),
  ("border-x-2", [(Slot.borL, Val.len (AbsLen.pxl (2 : Rat))), (Slot.borR, Val.len (AbsLen.pxl (2 : Rat)))]),
  ("border-x-4", [(Slot.borL, Val.len (AbsLen.pxl (4 : Rat))), (Slot.borR, Val.len (AbsLen.pxl (4 : Rat)))]),
  ("border-x-8", [(Slot.borL, Val.len (AbsLen.pxl (8 : Rat))), (Slot.borR, Val.len (AbsLen.pxl (8 : Rat)))]),
  ("border-x", [(Slot.borL, Val.len (AbsLen.pxl (1 : Rat))), (Slot.borR, Val.len (AbsLen.pxl (1 : Rat)))]),
  ("border-y-0", [(Slot.borT, Val.len (AbsLen.pxl (0 : Rat))), (Slot.borB, Val.len (AbsLen.pxl (0 : Rat)))]),
  ("border-y-2", [(Slot.borT, Val.len (AbsLen.pxl (2 : Rat))), (Slot.borB, Val.len (AbsLen.pxl (2 : Rat)))]),
  ("border-y-4", [(Slot.borT, Val.len (AbsLen.pxl (4 : Rat))), (Slot.borB, Val.len (AbsLen.pxl (4 : Rat)))]),
  ("border-y-8", [(Slot.borT, Val.len (AbsLen.pxl (8 : Rat))), (Slot.borB, Val.len (AbsLen.pxl (8 : Rat)))]),
  ("border-y", [(Slot.borT, Val.len (AbsLen.pxl (1 : Rat))), (Slot.borB, Val.len (AbsLen.pxl (1 : Rat)))]),
  ("rounded-none", [(Slot.radTL, Val.len (AbsLen.pxl (0 : Rat))), (Slot.radTR, Val.len (AbsLen.pxl (0 : Rat))), (Slot.radBR, Val.len (AbsLen.pxl (0 : Rat))), (Slot.radBL, Val.len (AbsLen.pxl (0 : Rat)))]),
  ("rounded-sm", [(Slot.radTL, Val.len (AbsLen.reml ((1 : Rat) / 8))), (Slot.radTR, Val.len (AbsLen.reml ((1 : Rat) / 8))), (Slot.radBR, Val.len (AbsLen.reml ((1 : Rat) / 8))), (Slot.radBL, Val.len (AbsLen.reml ((1 : Rat) / 8)))]),
  ("rounded-md", [(Slot.radTL, Val.len (AbsLen.reml ((1 : Rat) / 4))), (Slot.radTR, Val.len (AbsLen.reml ((1 : Rat) / 4))), (Slot.radBR, Val.len (AbsLen.reml ((1 : Rat) / 4))), (Slot.radBL, Val.len (AbsLen.reml ((1 : Rat) / 4)))]),
  ("rounded-lg", [(Slot.radTL, Val.len (AbsLen.reml ((1 : Rat) / 2))), (Slot.radTR, Val.len (AbsLen.reml ((1 : Rat) / 2))), (Slot.radBR, Val.len (AbsLen.reml ((1 : Rat) / 2))), (Slot.radBL, Val.len (AbsLen.reml ((1 : Rat) / 2)))]),
  ("rounded-full", [(Slot.radTL, Val.len (AbsLen.pxl (9999 : Rat))), (Slot.radTR, Val.len (AbsLen.pxl (9999 : Rat))), (Slot.radBR, Val.len (AbsLen.pxl (9999 : Rat))), (Slot.radBL, Val.len (AbsLen.pxl (9999 : Rat)))]),
  ("rounded-t-none", [(Slot.radTL, Val.len (AbsLen.pxl (0 : Rat))), (Slot.radTR, Val.len (AbsLen.pxl (0 : Rat)))]),
  ("rounded-t-sm", [(Slot.radTL, Val.len (AbsLen.reml ((1 : Rat) / 8))), (Slot.radTR, Val.len (AbsLen.reml ((1 : Rat) / 8)))]),
  ("rounded-t-md", [(Slot.radTL, Val.len (AbsLen.reml ((1 : Rat) / 4))), (Slot.radTR, Val.len (AbsLen.reml ((1 : Rat) / 4)))]),
  ("rounded-t-lg", [(Slot.radTL, Val.len (AbsLen.reml ((1 : Rat) / 2))), (Slot.radTR, Val.len (AbsLen.reml ((1 : Rat) / 2)))]),
  ("rounded-t-full", [(Slot.radTL, Val.len (AbsLen.pxl (9999 : Rat))), (Slot.radTR, Val.len (AbsLen.pxl (9999 : Rat)))]),
  ("rounded-r-none", [(Slot.radTR, Val.len (AbsLen.pxl (0 : Rat))), (Slot.radBR, Val.len (AbsLen.pxl (0 : Rat)))]),
  ("rounded-r-sm", [(Slot.radTR, Val.len (AbsLen.reml ((1 : Rat) / 8))), (Slot.radBR, Val.len (AbsLen.reml ((1 : Rat) / 8)))]),
  ("rounded-r-md", [(Slot.radTR, Val.len (AbsLen.reml ((1 : Rat) / 4))), (Slot.radBR, Val.len (AbsLen.reml ((1 : Rat) / 4)))]),
  ("rounded-r-lg", [(Slot.radTR, Val.len (AbsLen.reml ((1 : Rat) / 2))), (Slot.radBR, Val.len (AbsLen.reml ((1 : Rat) / 2)))]),
  ("rounded-r-full", [(Slot.radTR, Val.len (AbsLen.pxl (9999 : Rat))), (Slot.radBR, Val.len (AbsLen.pxl (9999 : Rat)))]),
  ("rounded-b-none", [(Slot.radBR, Val.len (AbsLen.pxl (0 : Rat))), (Slot.radBL, Val.len (AbsLen.pxl (0 : Rat)))]),
  ("rounded-b-sm", [(Slot.radBR, Val.len (AbsLen.reml ((1 : Rat) / 8))), (Slot.radBL, Val.len (AbsLen.reml ((1 : Rat) / 8)))]),
  ("rounded-b-md", [(Slot.radBR, Val.len (AbsLen.reml ((1 : Rat) / 4))), (Slot.radBL, Val.len (AbsLen.reml ((1 : Rat) / 4)))]),
  ("rounded-b-lg", [(Slot.radBR, Val.len (AbsLen.reml ((1 : Rat) / 2))), (Slot.radBL, Val.len (AbsLen.reml ((1 : Rat) / 2)))]),
  ("rounded-b-full", [(Slot.radBR, Val.len (AbsLen.pxl (9999 : Rat))), (Slot.radBL, Val.len (AbsLen.pxl (9999 : Rat)))]),
  ("rounded-l-none", [(Slot.radTL, Val.len (AbsLen.pxl (0 : Rat))), (Slot.radBL, Val.len (AbsLen.pxl (0 : Rat)))]),
  ("rounded-l-sm", [(Slot.radTL, Val.len (AbsLen.reml ((1 : Rat) / 8))), (Slot.radBL, Val.len (AbsLen.reml ((1 : Rat) / 8)))]),
  ("rounded-l-md", [(Slot.radTL, Val.len (AbsLen.reml ((1 : Rat) / 4))), (Slot.radBL, Val.len (AbsLen.reml ((1 : Rat) / 4)))]),
  ("rounded-l-lg", [(Slot.radTL, Val.len (AbsLen.reml ((1 : Rat) / 2))), (Slot.radBL, Val.len (AbsLen.reml ((1 : Rat) / 2)))]),
  ("rounded-l-full", [(Slot.radTL, Val.len (AbsLen.pxl (9999 : Rat))), (Slot.radBL, Val.len (AbsLen.pxl (9999 : Rat)))]),
  ("rounded-tl-none", [(Slot.radTL, Val.len (AbsLen.pxl (0 : Rat)))]),
  ("rounded-tl-sm", [(Slot.radTL, Val.len (AbsLen.reml ((1 : Rat) / 8)))]),
  ("rounded-tl-md", [(Slot.radTL, Val.len (AbsLen.reml ((1 : Rat) / 4)))]),
  ("rounded-tl-lg", [(Slot.radTL, Val.len (AbsLen.reml ((1 : Rat) / 2)))]),
  ("rounded-tl-full", [(Slot.radTL, Val.len (AbsLen.pxl (9999 : Rat)))]),
  ("rounded-tr-none", [(Slot.radTR, Val.len (AbsLen.pxl (0 : Rat)))]),
  ("rounded-tr-sm", [(Slot.radTR, Val.len (AbsLen.reml ((1 : Rat) / 8)))]),
  ("rounded-tr-md", [(Slot.radTR, Val.len (AbsLen.reml ((1 : Rat) / 4)))]),
  ("rounded-tr-lg", [(Slot.radTR, Val.len (AbsLen.reml ((1 : Rat) / 2)))]),
  ("rounded-tr-full", [(Slot.radTR, Val.len (AbsLen.pxl (9999 : Rat)))]),
  ("rounded-br-none", [(Slot.radBR, Val.len (AbsLen.pxl (0 : Rat)))]),
  ("rounded-br-sm", [(Slot.radBR, Val.len (AbsLen.reml ((1 : Rat) / 8)))]),
  ("rounded-br-md", [(Slot.radBR, Val.len (AbsLen.reml ((1 : Rat) / 4)))]),
  ("rounded-br-lg", [(Slot.radBR, Val.len (AbsLen.reml ((1 : Rat) / 2)))]),
  ("rounded-br-full", [(Slot.radBR, Val.len (AbsLen.pxl (9999 : Rat)))]),
  ("rounded-bl-none", [(Slot.radBL, Val.len (AbsLen.pxl (0 : Rat)))]),
  ("rounded-bl-sm", [(Slot.radBL, Val.len (AbsLen.reml ((1 : Rat) / 8)))]),
  ("rounded-bl-md", [(Slot.radBL, Val.len (AbsLen.reml ((1 : Rat) / 4)))]),
  ("rounded-bl-lg", [(Slot.radBL, Val.len (AbsLen.reml ((1 : Rat) / 2)))]),
  ("rounded-bl-full", [(Slot.radBL, Val.len (AbsLen.pxl (9999 : Rat)))])]

/-- Enumerated lookup: `some` writes for a token of the fixed table, `none`
for a token that falls through to the default arm. -/
def enumWrites (class_name : String) : Option (List (Slot × Val)) :=
  (enumTable.find? (fun p => p.1 == class_name)).map (fun p => p.2)

/-! ## Literal parsing: hex colors and numeric lengths -/

/-- Value of one hex digit, as accepted by `u32::from_str_radix(_, 16)`. -/
def hexDigitVal (c : Char) : Option Nat :=
  if '0' ≤ c ∧ c ≤ '9' then some (c.toNat - '0'.toNat)
  else if 'a' ≤ c ∧ c ≤ 'f' then some (c.toNat - 'a'.toNat + 10)
  else if 'A' ≤ c ∧ c ≤ 'F' then some (c.toNat - 'A'.toNat + 10)
  else none

def hexValGo : List Char → Nat → Option Nat
  | [], acc => some acc
  | c :: rest, acc =>
    match hexDigitVal c with
    | some d => hexValGo rest (acc * 16 + d)
    | none => none

/-- `u32::from_str_radix(s, 16)`: an optional leading `+` sign followed by a
non-empty run of hex digits.  (The slices taken by `hex_to_rgb` are two
characters long, so overflow cannot occur and is not modelled.) -/
def fromStrRadix16 (l : List Char) : Option Nat :=
  match l with
  | [] => none
  | '+' :: rest => if rest.isEmpty then none else hexValGo rest 0
  | _ => hexValGo l 0

/-- `hex_to_rgb` (component_tree.rs lines 182-190).  `trim_start_matches('#')`
drops every leading `#`; the byte slices `[0..2]`, `[2..4]`, `[4..6]` panic
when the string is shorter than six characters, and each
`from_str_radix(..).unwrap()` panics on a non-hex pair — all of these are
the single `.error .panicked` outcome. -/
def hex_to_rgb (hex : String) : Except RustPanic Rgba :=
  let h := hex.data.dropWhile (· == '#')
  if h.length < 6 then .error .panicked
  else
    match fromStrRadix16 (h.take 2), fromStrRadix16 ((h.drop 2).take 2),
          fromStrRadix16 ((h.drop 4).take 2) with
    | some r, some g, some b => .ok ⟨(r <<< 16) + (g <<< 8) + b⟩
    | _, _, _ => .error .panicked

/-- A digit or a decimal point: the character class scanned by
`extract_length_from_class_name`. -/
def isNumChar (c : Char) : Bool := c.isDigit || c == '.'

def digitsVal : List Char → Nat → Nat
  | [], acc => acc
  | c :: rest, acc => digitsVal rest (acc * 10 + (c.toNat - '0'.toNat))

/-- `numeric_part.parse::<f32>()` on a string made of digits and dots,
modelled exactly over the rationals: the string must be
`digits* ['.' digits*]` with at least one digit overall (so "5.", ".5"
parse and "", ".", "1.2.3" do not — matching Rust's float grammar on this
character class). -/
def parseDecQ (s : String) : Option Rat :=
  let l := s.data
  let intPart := l.takeWhile Char.isDigit
  let rest := l.dropWhile Char.isDigit
  match rest with
  | [] => if intPart.isEmpty then none else some (digitsVal intPart 0 : Rat)
  | '.' :: fracPart =>
    if fracPart.all Char.isDigit ∧ ¬(intPart.isEmpty ∧ fracPart.isEmpty) then
      some ((digitsVal intPart 0 : Rat) +
        (digitsVal fracPart 0 : Rat) / ((10 : Rat) ^ fracPart.length))
    else none
  | _ => none

/-- `parse::<f32>().unwrap_or_default()`: 0 on a parse failure. -/
def parseNum (s : String) : Rat := (parseDecQ s).getD 0

/-- `extract_length_from_class_name` (component_tree.rs lines 868-887).
The numeric part skips to the first digit/dot and takes the run from
there; the unit part drops the digit/dot run from the start of the
string; the unit selects pixels or rems, anything else defaulting to
zero pixels. -/
def extract_length_from_class_name (class_name : String) : AbsLen :=
  let numeric_part : String :=
    String.mk ((class_name.data.dropWhile (fun c => !(isNumChar c))).takeWhile
      (fun c => isNumChar c))
  let unit_part : String :=
    String.mk (class_name.data.dropWhile (fun c => isNumChar c))
  let rounded_value := parseNum numeric_part
  if unit_part = "px" then AbsLen.pxl rounded_value
  else if unit_part = "rem" then AbsLen.reml rounded_value
  else AbsLen.pxl 0

/-- The extraction rule in the spec's words (§4.2): "The numeric literal
is extracted by scanning the parameterized token for the longest leading
digit/decimal run, the unit by scanning the remaining suffix; unrecognized
units default to zero-pixel length".  Defined for comparison with the
source function above. -/
def specExtractLength (token : String) : AbsLen :=
  let numeric : String := String.mk (token.data.takeWhile (fun c => isNumChar c))
  let unit : String := String.mk (token.data.dropWhile (fun c => isNumChar c))
  if unit = "px" then AbsLen.pxl (parseNum numeric)
  else if unit = "rem" then AbsLen.reml (parseNum numeric)
  else AbsLen.pxl 0

/-! ## The class-token resolver -/

/-- Rust `str::starts_with`, over the character sequence (reduces by
computation, unlike `String.startsWith`). -/
def strStartsWith (s p : String) : Bool := p.data.isPrefixOf s.data

/-- Rust `suffix.split('-').next()`: the segment before the first dash
(`Some` is always returned, the empty string when the token starts with a
dash or is empty). -/
def firstDashSeg (s : String) : String :=
  String.mk (s.data.takeWhile (fun c => c != '-'))

/-- The body of the `for class_name in classes` loop of `set_attributes`
(component_tree.rs lines 202-861): the two bracket-literal branches, then
the enumerated match, then the default arm's dynamic `rounded-` handling.
`class_name["bg-[".len()..class_name.len() - 1]` is the token with the
prefix and the closing bracket removed (on a token as short as the prefix
itself the source's slice panics, and so does `hex_to_rgb` on the empty
string it would get here — the same `.error` either way). -/
def applyClass (element : StyleMap) (class_name : String) :
    Except RustPanic StyleMap :=
  if strStartsWith class_name "bg-[" then
    match hex_to_rgb (String.mk ((class_name.data.drop 4).dropLast)) with
    | .ok color => .ok (writeSlot element .bg (.color color))
    | .error e => .error e
  else if strStartsWith class_name "text-color-[" then
    match hex_to_rgb (String.mk ((class_name.data.drop 12).dropLast)) with
    | .ok color => .ok (writeSlot element .textColor (.color color))
    | .error e => .error e
  else
    match enumWrites class_name with
    | some ws => .ok (applyWrites element ws)
    | none =>
      if strStartsWith class_name "rounded-" then
        let sfx := String.mk (class_name.data.drop 8)
        let absolute_length := extract_length_from_class_name sfx
        .ok (match firstDashSeg sfx with
          | "t" => applyWrites element
              [(.radTL, .len absolute_length), (.radTR, .len absolute_length)]
          | "r" => applyWrites element
              [(.radTR, .len absolute_length), (.radBR, .len absolute_length)]
          | "b" => applyWrites element
              [(.radBR, .len absolute_length), (.radBL, .len absolute_length)]
          | "l" => applyWrites element
              [(.radTL, .len absolute_length), (.radBL, .len absolute_length)]
          | "tl" => applyWrites element [(.radTL, .len absolute_length)]
          | "tr" => applyWrites element [(.radTR, .len absolute_length)]
          | "br" => applyWrites element [(.radBR, .len absolute_length)]
          | "bl" => applyWrites element [(.radBL, .len absolute_length)]
          | _ => applyWrites element
              [(.radTL, .len absolute_length), (.radTR, .len absolute_length),
               (.radBR, .len absolute_length), (.radBL, .len absolute_length)])
      else .ok element

/-- Rust `str::split_whitespace`: split at whitespace runs, no empty
tokens. -/
def splitWsGo : List Char → List Char → List String
  | [], [] => []
  | [], acc => [String.mk acc.reverse]
  | c :: rest, acc =>
    if c.isWhitespace then
      if acc.isEmpty then splitWsGo rest []
      else String.mk acc.reverse :: splitWsGo rest []
    else splitWsGo rest (c :: acc)

def splitWhitespace (s : String) : List String := splitWsGo s.data []

/-- Resolve a list of class tokens left to right over a style state. -/
def resolveTokens (s : StyleMap) (tokens : List String) :
    Except RustPanic StyleMap :=
  tokens.foldlM applyClass s

/-- `set_attributes` (component_tree.rs lines 192-865): find the first
`class` attribute, split it on whitespace, and resolve each token in
order. -/
def set_attributes (element : StyleMap) (attributes : List (String × String)) :
    Except RustPanic StyleMap :=
  match attributes.find? (fun p => p.1 == "class") with
  | none => .ok element
  | some p => resolveTokens element (splitWhitespace p.2)

/-! ## Rendering -/

/-- The renderable element produced for one component node, at the gpui
interface: the source's `ComponentType` enum (component_tree.rs lines
111-115) with the payload each variant carries.  A `div` carries its
rendered children (element children first, then the optional text child,
exactly as the source appends them) and the style written by
`set_attributes`; text added with `.child(text)` is a `textNode`. -/
inductive RNode where
  | div (children : List RNode) (style : StyleMap)
  | textNode (s : String)
  | img (src : String) (style : StyleMap)
  | svg (path : String) (style : StyleMap)

/-- The placeholder produced for an `img` without a `src` attribute
(component_tree.rs line 155) and for an `svg` without a `path` attribute
(line 171 — the source reuses the img message verbatim). -/
def missingAttrPlaceholder : RNode :=
  .div [.textNode "Error: img element must have src attribute"] emptyStyle

/-- The optional text child a `div` gains from its component's text
(component_tree.rs lines 135-137). -/
def textChildren : Option String → List RNode
  | some t => [.textNode t]
  | none => []

mutual

/-- `render_component` (component_tree.rs lines 117-178).  Unknown tags
produce a bare `div()` — their children are not rendered; `img`/`svg`
ignore their children; a missing required attribute degrades the single
node to `missingAttrPlaceholder`.  `set_attributes` may panic (hex-color
unwraps), which propagates as `.error`. -/
def render_component : Component → Except RustPanic RNode
  | ⟨elem, text, attributes, children⟩ =>
    match elem with
    | "div" =>
      match renderList children with
      | .error e => .error e
      | .ok rendered =>
        match set_attributes emptyStyle attributes with
        | .error e => .error e
        | .ok style => .ok (.div (rendered ++ textChildren text) style)
    | "img" =>
      match (attributes.find? (fun p => p.1 == "src")).map (fun p => p.2) with
      | some src =>
        match set_attributes emptyStyle attributes with
        | .error e => .error e
        | .ok style => .ok (.img src style)
      | none => .ok missingAttrPlaceholder
    | "svg" =>
      match (attributes.find? (fun p => p.1 == "path")).map (fun p => p.2) with
      | some path =>
        match set_attributes emptyStyle attributes with
        | .error e => .error e
        | .ok style => .ok (.svg path style)
      | none => .ok missingAttrPlaceholder
    | _ => .ok (.div [] emptyStyle)

/-- The child-rendering loop of the `div` branch (component_tree.rs lines
123-132): children are rendered and appended in order. -/
def renderList : List Component → Except RustPanic (List RNode)
  | [] => .ok []
  | c :: cs =>
    match render_component c with
    | .error e => .error e
    | .ok r =>
      match renderList cs with
      | .error e => .error e
      | .ok rs => .ok (r :: rs)

end

/-! ## Well-formed markup and the event streams it produces -/

/-- A well-formed markup element: a normal element with attributes, an
optional single text run and child elements in document order, or a
self-closing (empty) element. -/
inductive MNode where
  | elem (name : String) (attrs : List (String × String))
         (text : Option String) (children : List MNode)
  | emptyElem (name : String) (attrs : List (String × String))

mutual

/-- The event stream the quick_xml reader yields for one well-formed
element.  The reader is configured with `expand_empty_elements(true)`
(component_tree.rs line 31), so a self-closing tag in the markup text
arrives as a start event immediately followed by an end event; `emptyElem`
is nevertheless emitted as the unexpanded `empty` event as well where the
claims exercise that branch of the builder. -/
def toEvents : MNode → List XEvent
  | .elem n a t cs =>
    .start n a ::
      (toEventsList cs ++
        (match t with | some s => [XEvent.text s] | none => []) ++ [.endTag])
  | .emptyElem n a => [.empty n a]

def toEventsList : List MNode → List XEvent
  | [] => []
  | m :: ms => toEvents m ++ toEventsList ms

end

mutual

/-- The component tree a well-formed element denotes: one node per
element, children in document order. -/
def toComponent : MNode → Component
  | .elem n a t cs => ⟨n, t, a, toComponentList cs⟩
  | .emptyElem n a => ⟨n, none, a, []⟩

def toComponentList : List MNode → List Component
  | [] => []
  | m :: ms => toComponent m :: toComponentList ms

end

mutual

/-- Number of nodes of a component tree. -/
def countComp : Component → Nat
  | ⟨_, _, _, ch⟩ => 1 + countCompList ch

def countCompList : List Component → Nat
  | [] => 0
  | c :: cs => countComp c + countCompList cs

end

/-- Number of start and empty (self-closing) tag events in a stream. -/
def countStartEmpty (events : List XEvent) : Nat :=
  (events.filter (fun e =>
    match e with
    | .start _ _ => true
    | .empty _ _ => true
    | _ => false)).length

/-! ## The reload subscriber -/

/-- The published parse/reload state: the current root component held by
the `HelloWorld` view (crates/configurator/src/hello.rs lines 21-24). -/
structure ReloadState where
  root : Component

/-- The `FileChangeEvent::DataChange` subscriber
(crates/configurator/src/hello.rs lines 38-51): on every data-change
event it re-reads the file, re-parses it, overwrites `root_component`
with the result unconditionally, and calls `cx.notify()` exactly once.
The file content is abstracted to the event stream `events` the reader
yields for it; the returned number counts the `cx.notify()` calls of the
subscriber.  The previous state `st` is not consulted — the source has no
retention path. -/
def onDataChange (st : ReloadState) (events : List XEvent) :
    Except RustPanic (ReloadState × Nat) :=
  match parse_component events with
  | .ok c => .ok (⟨c⟩, 1)
  | .error e => .error e

/-- Event stream of the external reader for the markup `<a><b></a>`,
modelled from the spec: the reader is configured with
`check_end_names(true)` (component_tree.rs line 32), so the end tag
`</a>` that does not match the innermost open tag `<b>` is reported as a
stream error. -/
def streamMismatchedEnd : List XEvent :=
  [.start "a" [], .start "b" [], .err]

/-- Event stream of the external reader for the markup `<a><b>`, modelled
from the spec: per §7 an unterminated construct is a `StreamReadError`,
i.e. the reader reports a stream error before end-of-stream when a start
tag is never closed. -/
def streamUnterminated : List XEvent :=
  [.start "a" [], .start "b" [], .err]

/-! ## Helper lemmas: the builder -/

theorem buildGo_of_err_mem (events : List XEvent) :
    ∀ stack, XEvent.err ∈ events → buildGo stack events = .error .panicked := by
  induction events with
  | nil => intro stack h; cases h
  | cons e rest ih =>
    intro stack h
    have h' : XEvent.err = e ∨ XEvent.err ∈ rest := List.mem_cons.mp h
    cases e with
    | err => rfl
    | start n a =>
      have hr : XEvent.err ∈ rest := h'.resolve_left (by simp)
      exact ih _ hr
    | empty n a =>
      have hr : XEvent.err ∈ rest := h'.resolve_left (by simp)
      cases stack with
      | nil => exact ih _ hr
      | cons p s => exact ih _ hr
    | endTag =>
      have hr : XEvent.err ∈ rest := h'.resolve_left (by simp)
      match stack with
      | [] => exact ih _ hr
      | [c] => exact ih _ hr
      | c :: p :: s => exact ih _ hr
    | text t =>
      have hr : XEvent.err ∈ rest := h'.resolve_left (by simp)
      cases stack with
      | nil => exact ih _ hr
      | cons p s => exact ih _ hr
    | other =>
      have hr : XEvent.err ∈ rest := h'.resolve_left (by simp)
      exact ih _ hr

theorem buildGo_of_err_not_mem (events : List XEvent) :
    ∀ stack, XEvent.err ∉ events → ∃ c, buildGo stack events = .ok c := by
  induction events with
  | nil =>
    intro stack _
    cases stack with
    | nil => exact ⟨errorComponent, rfl⟩
    | cons c s => exact ⟨c, rfl⟩
  | cons e rest ih =>
    intro stack h
    have hr : XEvent.err ∉ rest := fun hm => h (List.mem_cons_of_mem _ hm)
    cases e with
    | err => exact absurd (List.mem_cons_self _ _) h
    | start n a => exact ih _ hr
    | empty n a =>
      cases stack with
      | nil => exact ih _ hr
      | cons p s => exact ih _ hr
    | endTag =>
      match stack with
      | [] => exact ih _ hr
      | [c] => exact ih _ hr
      | c :: p :: s => exact ih _ hr
    | text t =>
      cases stack with
      | nil => exact ih _ hr
      | cons p s => exact ih _ hr
    | other => exact ih _ hr

mutual

/-- Processing the events of one well-formed element on a non-empty stack
appends exactly its component to the children of the stack top. -/
theorem buildGo_toEvents (m : MNode) :
    ∀ (k : List XEvent) (p : Component) (s : List Component),
      buildGo (p :: s) (toEvents m ++ k) =
        buildGo (addChild p (toComponent m) :: s) k := by
  intro k p s
  cases m with
  | elem n a t cs =>
    show buildGo (⟨n, none, a, []⟩ :: p :: s)
        ((toEventsList cs ++ _ ++ [XEvent.endTag]) ++ k) = _
    rw [List.append_assoc, List.append_assoc,
      buildGo_toEventsList cs _ ⟨n, none, a, []⟩ (p :: s)]
    cases t with
    | none => simp [toComponent, addChildren, buildGo, addChild]
    | some s0 => simp [toComponent, addChildren, buildGo, addChild, setText]
  | emptyElem n a =>
    show buildGo (addChild p ⟨n, none, a, []⟩ :: s) k = _
    rfl

theorem buildGo_toEventsList (ms : List MNode) :
    ∀ (k : List XEvent) (p : Component) (s : List Component),
      buildGo (p :: s) (toEventsList ms ++ k) =
        buildGo (addChildren p (toComponentList ms) :: s) k := by
  intro k p s
  cases ms with
  | nil =>
    show buildGo (p :: s) k = _
    cases p with
    | mk e t a ch => simp [addChildren, toComponentList]
  | cons m ms' =>
    show buildGo (p :: s) ((toEvents m ++ toEventsList ms') ++ k) = _
    rw [List.append_assoc, buildGo_toEvents m _ p s,
      buildGo_toEventsList ms' k (addChild p (toComponent m)) s]
    cases p with
    | mk e t a ch => simp [addChild, addChildren, toComponentList]

end

/-- Processing one well-formed root element from the empty stack leaves
exactly its component on the stack: the root's end event hits the
`stack.len() > 1` guard and is a no-op. -/
theorem buildGo_root (n : String) (a : List (String × String))
    (t : Option String) (cs : List MNode) (k : List XEvent) :
    buildGo [] (toEvents (.elem n a t cs) ++ k) =
      buildGo [toComponent (.elem n a t cs)] k := by
  show buildGo [⟨n, none, a, []⟩]
      ((toEventsList cs ++ _ ++ [XEvent.endTag]) ++ k) = _
  rw [List.append_assoc, List.append_assoc,
    buildGo_toEventsList cs _ ⟨n, none, a, []⟩ []]
  cases t with
  | none => simp [toComponent, addChildren, buildGo, setText]
  | some s0 => simp [toComponent, addChildren, buildGo, setText]

mutual

/-- The node count of the component of a well-formed element equals the
number of start and empty tag events in its event stream. -/
theorem countComp_toComponent (m : MNode) :
    countComp (toComponent m) = countStartEmpty (toEvents m) := by
  cases m with
  | elem n a t cs =>
    have hl := countCompList_toComponentList cs
    cases t with
    | none =>
      simp [toComponent, toEvents, countComp, countStartEmpty,
        List.filter_append] at hl ⊢
      omega
    | some s0 =>
      simp [toComponent, toEvents, countComp, countStartEmpty,
        List.filter_append] at hl ⊢
      omega
  | emptyElem n a => rfl

theorem countCompList_toComponentList (ms : List MNode) :
    countCompList (toComponentList ms) = countStartEmpty (toEventsList ms) := by
  cases ms with
  | nil => rfl
  | cons m ms' =>
    have h1 := countComp_toComponent m
    have h2 := countCompList_toComponentList ms'
    simp [toComponentList, toEventsList, countCompList, countStartEmpty,
      List.filter_append] at h1 h2 ⊢
    omega

end

/-! ## Helper lemmas: slot writes -/

/-- The last value written to slot `x` by a write chain, if any. -/
def lastWrite (ws : List (Slot × Val)) (x : Slot) : Option Val :=
  ws.foldl (fun acc p => if p.1 = x then some p.2 else acc) none

theorem lastWrite_foldl_init (ws : List (Slot × Val)) (x : Slot) :
    ∀ a : Option Val,
      ws.foldl (fun acc p => if p.1 = x then some p.2 else acc) a =
        match lastWrite ws x with
        | some v => some v
        | none => a := by
  induction ws with
  | nil => intro a; rfl
  | cons p ws ih =>
    intro a
    show ws.foldl _ (if p.1 = x then some p.2 else a) = _
    rw [ih]
    have hws : lastWrite (p :: ws) x =
        match lastWrite ws x with
        | some v => some v
        | none => if p.1 = x then some p.2 else none := by
      show ws.foldl _ (if p.1 = x then some p.2 else none) = _
      rw [ih]
    rw [hws]
    cases lastWrite ws x with
    | some v => rfl
    | none => by_cases h : p.1 = x <;> simp [h]

theorem applyWrites_apply (ws : List (Slot × Val)) :
    ∀ (s : StyleMap) (x : Slot),
      applyWrites s ws x =
        match lastWrite ws x with
        | some v => some v
        | none => s x := by
  induction ws with
  | nil => intro s x; rfl
  | cons p ws ih =>
    intro s x
    show applyWrites (Function.update s p.1 (some p.2)) ws x = _
    rw [ih]
    have hws : lastWrite (p :: ws) x =
        match lastWrite ws x with
        | some v => some v
        | none => if p.1 = x then some p.2 else none :=
      lastWrite_foldl_init ws x _
    rw [hws]
    cases lastWrite ws x with
    | some v => rfl
    | none =>
      by_cases h : p.1 = x
      · subst h; simp [Function.update_apply]
      · rw [if_neg h, Function.update_apply,
          if_neg (fun hx : x = p.1 => h hx.symm)]

theorem lastWrite_eq_none (ws : List (Slot × Val)) (x : Slot)
    (h : x ∉ ws.map Prod.fst) : lastWrite ws x = none := by
  induction ws with
  | nil => rfl
  | cons p ws ih =>
    have hx : p.1 ≠ x := fun he => h (by simp [he])
    have hr : x ∉ ws.map Prod.fst := fun hm => h (by simp [hm])
    show ws.foldl _ (if p.1 = x then some p.2 else none) = _
    rw [lastWrite_foldl_init ws x, ih hr, if_neg hx]

theorem lastWrite_mem (ws : List (Slot × Val)) (x : Slot) (v : Val)
    (h : lastWrite ws x = some v) : x ∈ ws.map Prod.fst := by
  by_contra hx
  rw [lastWrite_eq_none ws x hx] at h
  cases h

/-- Write chains touching disjoint slot sets commute. -/
theorem applyWrites_comm (s : StyleMap) (ws1 ws2 : List (Slot × Val))
    (h : ∀ x ∈ ws1.map Prod.fst, x ∉ ws2.map Prod.fst) :
    applyWrites (applyWrites s ws1) ws2 =
      applyWrites (applyWrites s ws2) ws1 := by
  funext x
  rw [applyWrites_apply, applyWrites_apply, applyWrites_apply,
    applyWrites_apply]
  cases h1 : lastWrite ws1 x with
  | some v1 =>
    cases h2 : lastWrite ws2 x with
    | some v2 =>
      exact absurd (lastWrite_mem ws2 x v2 h2)
        (h x (lastWrite_mem ws1 x v1 h1))
    | none => rfl
  | none => cases h2 : lastWrite ws2 x with
    | some v2 => rfl
    | none => rfl

/-! ## Helper lemmas: enumerated tokens -/

/-- A token resolved purely through the enumerated table: it has an entry
there and does not begin with one of the bracket-literal prefixes the
source checks first (no token of the table does begin with them; the two
extra conjuncts only record that the prefix branches are not taken). -/
def isEnumToken (t : String) : Bool :=
  !(strStartsWith t "bg-[") && !(strStartsWith t "text-color-[") &&
    (enumWrites t).isSome

/-- The operation slots an enumerated token writes. -/
def slotsOf (t : String) : List Slot :=
  ((enumWrites t).getD []).map Prod.fst

theorem applyClass_enum (s : StyleMap) (t : String)
    (h : isEnumToken t = true) :
    applyClass s t = .ok (applyWrites s ((enumWrites t).getD [])) := by
  have h' := h
  unfold isEnumToken at h'
  rw [Bool.and_eq_true, Bool.and_eq_true] at h'
  obtain ⟨⟨h1, h2⟩, h3⟩ := h'
  rw [Bool.not_eq_true'] at h1 h2
  unfold applyClass
  rw [if_neg (by simp [h1]), if_neg (by simp [h2])]
  cases he : enumWrites t with
  | some ws => simp [he]
  | none => rw [he] at h3; cases h3

theorem resolveTokens_enum (toks : List String) :
    ∀ s : StyleMap, (∀ t ∈ toks, isEnumToken t = true) →
      resolveTokens s toks =
        .ok (toks.foldl (fun st t => applyWrites st ((enumWrites t).getD [])) s) := by
  induction toks with
  | nil => intro s _; rfl
  | cons t toks ih =>
    intro s h
    have ht : isEnumToken t = true := h t (List.mem_cons_self _ _)
    have hr : ∀ u ∈ toks, isEnumToken u = true :=
      fun u hu => h u (List.mem_cons_of_mem _ hu)
    show (t :: toks).foldlM applyClass s = _
    rw [List.foldlM_cons, applyClass_enum s t ht]
    show resolveTokens (applyWrites s ((enumWrites t).getD [])) toks = _
    rw [ih _ hr]
    rfl

/-! ## Helper lemmas: length extraction and rendering -/

theorem numeric_parts_eq (l : List Char)
    (h : ∀ c ∈ l.dropWhile (fun c => isNumChar c), isNumChar c = false) :
    (l.dropWhile (fun c => !(isNumChar c))).takeWhile (fun c => isNumChar c) =
      l.takeWhile (fun c => isNumChar c) := by
  cases l with
  | nil => rfl
  | cons c cs =>
    by_cases hc : isNumChar c = true
    · rw [List.dropWhile_cons, if_neg (by simp [hc])]
    · have hall : ∀ x ∈ c :: cs, isNumChar x = false := by
        intro x hx
        apply h
        rwa [List.dropWhile_cons, if_neg (by simp [hc])]
      have hnil : (c :: cs).dropWhile (fun c => !(isNumChar c)) = [] :=
        List.dropWhile_eq_nil_iff.mpr (by
          intro x hx
          simp [hall x hx])
      rw [hnil, List.takeWhile_cons,
        if_neg (by simp [hall c (List.mem_cons_self _ _)])]
      rfl

/-- The source's length extraction agrees with the spec's description of
it on every token. -/
theorem extract_length_eq_spec (s : String) :
    extract_length_from_class_name s = specExtractLength s := by
  unfold extract_length_from_class_name specExtractLength
  by_cases hpx : String.mk (s.data.dropWhile (fun c => isNumChar c)) = "px"
  · have hd : s.data.dropWhile (fun c => isNumChar c) = ['p', 'x'] := by
      have h2 := congrArg String.data hpx
      simpa using h2
    have hnum : ∀ c ∈ s.data.dropWhile (fun c => isNumChar c),
        isNumChar c = false := by
      intro c hc
      rw [hd] at hc
      rcases hc with _ | ⟨_, _ | ⟨_, h⟩⟩ <;> first | rfl | cases ‹_ ∈ ([] : List Char)›
    rw [numeric_parts_eq s.data hnum, hpx]
  · by_cases hrem : String.mk (s.data.dropWhile (fun c => isNumChar c)) = "rem"
    · have hd : s.data.dropWhile (fun c => isNumChar c) = ['r', 'e', 'm'] := by
        have h2 := congrArg String.data hrem
        simpa using h2
      have hnum : ∀ c ∈ s.data.dropWhile (fun c => isNumChar c),
          isNumChar c = false := by
        intro c hc
        rw [hd] at hc
        rcases hc with _ | ⟨_, _ | ⟨_, _ | ⟨_, h⟩⟩⟩ <;>
          first | rfl | cases ‹_ ∈ ([] : List Char)›
      rw [numeric_parts_eq s.data hnum, hrem]
    · simp only [if_neg hpx, if_neg hrem]

theorem renderList_append (l1 : List Component) :
    ∀ (l2 : List Component) (rs1 rs2 : List RNode),
      renderList l1 = .ok rs1 → renderList l2 = .ok rs2 →
      renderList (l1 ++ l2) = .ok (rs1 ++ rs2) := by
  induction l1 with
  | nil =>
    intro l2 rs1 rs2 h1 h2
    cases h1
    simpa using h2
  | cons c cs ih =>
    intro l2 rs1 rs2 h1 h2
    cases hr : render_component c with
    | error e => rw [renderList, hr] at h1; cases h1
    | ok r =>
      cases hc : renderList cs with
      | error e => rw [renderList, hr, hc] at h1; cases h1
      | ok rs =>
        rw [renderList, hr, hc] at h1
        cases h1
        show renderList (c :: (cs ++ l2)) = _
        rw [renderList, hr, ih l2 rs rs2 hc h2]
        rfl

/-! ## The claims -/

/-- Claim C8: given an empty event stream (no element events before
end-of-stream), the tree builder returns the defined error placeholder
node with tag "error" and text "error", empty attributes and children,
rather than raising an error. -/
theorem claim_C8 :
    parse_component ([] : List XEvent) =
      .ok ⟨"error", some "error", [], []⟩ := rfl

/-- Counterexample to claim C2: the claim says no input ever terminates
the host process and every parse attempt returns normally, but on a
byte-level stream read error `parse_component` hits the
`Err(e) => panic!(..)` branch (component_tree.rs line 94): the parse does
not return normally — the panic unwinds the host process. -/
theorem claim_C2_counterexample :
    parse_component [XEvent.err] = .error .panicked := rfl

/-- Claim C2 as amended: for every reader event stream free of read
errors the tree builder returns normally; a stream read error makes
`parse_component` panic (process-fatal) instead of being contained to the
parse attempt. -/
theorem claim_C2_amended (events : List XEvent) (h : XEvent.err ∉ events) :
    ∃ c, parse_component events = .ok c :=
  buildGo_of_err_not_mem events [] h

theorem claim_C2_witness :
    ∃ c, parse_component [XEvent.start "div" [], XEvent.endTag] = .ok c :=
  claim_C2_amended [XEvent.start "div" [], XEvent.endTag] (by decide)

/-- Claim C3: the tree builder fails (no tree is returned) whenever the
reader stream carries an error event — which, per the spec's contract for
the external Tag Stream Reader, is what a start tag with no matching end
tag before end-of-stream produces (an unterminated construct is a stream
read error) and what an end tag mismatching the innermost open start tag
produces (the reader is configured with `check_end_names(true)`,
component_tree.rs line 32); in particular the stream of `<a><b></a>`
fails rather than yielding a tree. -/
theorem claim_C3 :
    (∀ events : List XEvent, XEvent.err ∈ events →
      parse_component events = .error .panicked) ∧
    parse_component streamUnterminated = .error .panicked ∧
    parse_component streamMismatchedEnd = .error .panicked :=
  ⟨fun evs h => buildGo_of_err_mem evs [] h, rfl, rfl⟩

theorem claim_C3_witness :
    parse_component [XEvent.start "x" [], XEvent.err] = .error .panicked :=
  claim_C3.1 [XEvent.start "x" [], XEvent.err] (by decide)

/-- Counterexample to claim C1: the claim says an event for a
syntactically invalid new file leaves the published tree untouched and
fires no notification; but the subscriber reparses and publishes
unconditionally, so for an invalid (here: empty, hence rootless) file the
published tree T0 is replaced by the error placeholder and one
notification still fires. -/
theorem claim_C1_counterexample :
    onDataChange ⟨⟨"div", none, [], []⟩⟩ [] = .ok (⟨errorComponent⟩, 1) ∧
      errorComponent ≠ (⟨"div", none, [], []⟩ : Component) :=
  ⟨rfl, fun h => absurd (congrArg Component.elem h) (by decide)⟩

/-- Claim C1 as amended: every data-change event triggers an
unconditional reparse-and-publish.  Whenever the reader stream has no
read error — including streams of syntactically invalid files, such as an
empty one — the published tree is replaced by the new parse result and
exactly one notification fires, regardless of the previous tree; when the
stream has a read error the subscriber panics instead of retaining the
previous tree. -/
theorem claim_C1_amended (st : ReloadState) (events : List XEvent)
    (h : XEvent.err ∉ events) :
    (∃ c, onDataChange st events = .ok (⟨c⟩, 1)) ∧
      (∀ (st' : ReloadState) (rest : List XEvent),
        onDataChange st' (XEvent.err :: rest) = .error .panicked) := by
  constructor
  · obtain ⟨c, hc⟩ := buildGo_of_err_not_mem events [] h
    have hc' : parse_component events = .ok c := hc
    exact ⟨c, by unfold onDataChange; rw [hc']⟩
  · intro st' rest
    rfl

theorem claim_C1_witness :
    (∃ c, onDataChange ⟨errorComponent⟩ [] = .ok (⟨c⟩, 1)) ∧
      (∀ (st' : ReloadState) (rest : List XEvent),
        onDataChange st' (XEvent.err :: rest) = .error .panicked) :=
  claim_C1_amended ⟨errorComponent⟩ [] (by decide)

/-- Claim C7: for every well-formed single-root markup input, the builder
produces exactly the denoted component tree — hence the node count equals
the number of start plus empty tags of the input's event stream, and each
node's children appear in document order (the component equality carries
the order of `toComponentList`, which lists children in document
order). -/
theorem claim_C7 (n : String) (a : List (String × String))
    (t : Option String) (cs : List MNode) :
    parse_component (toEvents (.elem n a t cs)) =
        .ok (toComponent (.elem n a t cs)) ∧
      countComp (toComponent (.elem n a t cs)) =
        countStartEmpty (toEvents (.elem n a t cs)) := by
  constructor
  · show buildGo [] _ = _
    rw [← List.append_nil (toEvents (.elem n a t cs)), buildGo_root]
    rfl
  · exact countComp_toComponent _

/-- Claim C10: an event stream with several top-level elements yields the
first top-level element with every subsequent top-level element appended
to its children: the first root's end event is a no-op on a singleton
stack, so later root-level elements are attached beneath it; concretely,
the expanded stream of `<a/><b/>` yields `a` with child `b`. -/
theorem claim_C10 (n : String) (a : List (String × String))
    (t : Option String) (cs : List MNode) (ms : List MNode) :
    parse_component (toEvents (.elem n a t cs) ++ toEventsList ms) =
        .ok (addChildren (toComponent (.elem n a t cs))
          (toComponentList ms)) ∧
      parse_component [XEvent.start "a" [], XEvent.endTag,
          XEvent.start "b" [], XEvent.endTag] =
        .ok ⟨"a", none, [], [⟨"b", none, [], []⟩]⟩ := by
  constructor
  · show buildGo [] _ = _
    rw [buildGo_root n a t cs (toEventsList ms),
      ← List.append_nil (toEventsList ms),
      buildGo_toEventsList ms [] (toComponent (.elem n a t cs)) []]
    rfl
  · rfl


/-- Counterexample to claim C4: the claim says a malformed color literal
yields an error scoped to that single token, with the element's other
style operations still applied; but `hex_to_rgb` unwraps the failed hex
parse (component_tree.rs lines 184-186), so resolving
`"bg-[zz0000] flex"` panics and the later `flex` token is never applied —
the whole element's resolution (and the process) is aborted. -/
theorem claim_C4_counterexample :
    set_attributes emptyStyle [("class", "bg-[zz0000] flex")] =
      .error .panicked := rfl

set_option maxRecDepth 4000 in
/-- Claim C4 as amended: resolving `"bg-[#112233]"` produces a
background-color operation whose channels are (0x11, 0x22, 0x33); but a
malformed color literal such as `"bg-[zz0000]"` makes the resolver panic,
aborting the whole element's resolution, so the element's other
operations are not applied. -/
theorem claim_C4_amended (s : StyleMap) :
    set_attributes s [("class", "bg-[#112233]")] =
        .ok (Function.update s .bg (some (.color ⟨0x112233⟩))) ∧
      Rgba.rC ⟨0x112233⟩ = 0x11 ∧ Rgba.gC ⟨0x112233⟩ = 0x22 ∧
      Rgba.bC ⟨0x112233⟩ = 0x33 ∧
      set_attributes s [("class", "bg-[zz0000] flex")] = .error .panicked :=
  ⟨rfl, rfl, rfl, rfl, rfl⟩

set_option maxRecDepth 4000 in
/-- Claim C5: the numeric literal of a parameterized `rounded-` token is
the longest leading digit/decimal run, the unit the remaining suffix
("px" pixels, "rem" rems), and an unrecognized unit yields a zero-pixel
length instead of failing the element — the source's extraction agrees
with this description on every token, and for the direction-suffixed
`"rounded-tl-5px"` the suffix `tl-5px` is itself the (unrecognized) unit,
so the top-left radius resolves to zero pixels. -/
theorem claim_C5 (s : String) :
    extract_length_from_class_name s = specExtractLength s ∧
      ∀ s0 : StyleMap,
        set_attributes s0 [("class", "rounded-tl-5px")] =
          .ok (Function.update s0 .radTL (some (.len (.pxl 0)))) :=
  ⟨extract_length_eq_spec s, fun s0 => rfl⟩

set_option maxRecDepth 4000 in
/-- Claim C6: resolving a class string of enumerated-only tokens is
order-independent when the tokens write pairwise disjoint operation
slots (any permutation resolves to the same style), and when two tokens
write the same slot the later one wins — `"h-4 h-8"` resolves to the
height-8 operation only. -/
theorem claim_C6 (s : StyleMap) (toks toks' : List String)
    (henum : ∀ t ∈ toks, isEnumToken t = true)
    (hdisj : toks.Pairwise (fun a b => ∀ x ∈ slotsOf a, x ∉ slotsOf b))
    (hperm : toks.Perm toks') :
    resolveTokens s toks = resolveTokens s toks' ∧
      ∀ s0 : StyleMap,
        set_attributes s0 [("class", "h-4 h-8")] =
          .ok (Function.update s0 .height
            (some (.len (.reml ((8 : Rat) / 4))))) := by
  constructor
  · have henum' : ∀ t ∈ toks', isEnumToken t = true :=
      fun t ht => henum t (hperm.mem_iff.mpr ht)
    rw [resolveTokens_enum toks s henum, resolveTokens_enum toks' s henum']
    refine congrArg Except.ok (hperm.foldl_eq' ?_ s)
    intro x hx y hy z
    by_cases hxy : x = y
    · subst hxy; rfl
    · have hsym : Symmetric
          (fun a b : String => ∀ u ∈ slotsOf a, u ∉ slotsOf b) := by
        intro a b hab u hub hua
        exact hab u hua hub
      exact applyWrites_comm z _ _ (hdisj.forall hsym hx hy hxy)
  · intro s0
    show Except.ok (Function.update (Function.update s0 Slot.height
        (some (Val.len (AbsLen.reml ((4 : Rat) / 4))))) Slot.height
        (some (Val.len (AbsLen.reml ((8 : Rat) / 4))))) = _
    rw [Function.update_idem]

theorem claim_C6_witness :
    resolveTokens emptyStyle ["h-4", "w-8"] =
      resolveTokens emptyStyle ["w-8", "h-4"] :=
  (claim_C6 emptyStyle ["h-4", "w-8"] ["w-8", "h-4"]
    (by decide) (by decide) (by decide)).1

/-- Claim C9: rendering an `img` node with no `src` key (and an `svg`
node with no `path` key) produces the placeholder error-text container
in place of that single node, and every other node of the tree is
rendered normally: a `div` parent containing such a node renders its
other children as usual, with only the offending child replaced by the
placeholder. -/
theorem claim_C9 (t : Option String) (attrs : List (String × String))
    (ch : List Component)
    (hsrc : attrs.find? (fun p => p.1 == "src") = none)
    (pt : Option String) (pattrs : List (String × String)) (st : StyleMap)
    (hst : set_attributes emptyStyle pattrs = .ok st)
    (l1 l2 : List Component) (rs1 rs2 : List RNode)
    (h1 : renderList l1 = .ok rs1) (h2 : renderList l2 = .ok rs2) :
    render_component ⟨"img", t, attrs, ch⟩ = .ok missingAttrPlaceholder ∧
      (∀ (t2 : Option String) (attrs2 : List (String × String))
        (ch2 : List Component),
        attrs2.find? (fun p => p.1 == "path") = none →
        render_component ⟨"svg", t2, attrs2, ch2⟩ =
          .ok missingAttrPlaceholder) ∧
      render_component ⟨"div", pt, pattrs, l1 ++ ⟨"img", t, attrs, ch⟩ :: l2⟩ =
        .ok (.div ((rs1 ++ missingAttrPlaceholder :: rs2) ++ textChildren pt)
          st) := by
  have himg : render_component ⟨"img", t, attrs, ch⟩ =
      .ok missingAttrPlaceholder := by
    show (match (attrs.find? (fun p => p.1 == "src")).map (fun p => p.2) with
      | some src =>
        match set_attributes emptyStyle attrs with
        | Except.error e => Except.error e
        | Except.ok style => Except.ok (RNode.img src style)
      | none => Except.ok missingAttrPlaceholder) = Except.ok missingAttrPlaceholder
    rw [hsrc]
    rfl
  refine ⟨himg, ?_, ?_⟩
  · intro t2 attrs2 ch2 hpath
    show (match (attrs2.find? (fun p => p.1 == "path")).map (fun p => p.2) with
      | some path =>
        match set_attributes emptyStyle attrs2 with
        | Except.error e => Except.error e
        | Except.ok style => Except.ok (RNode.svg path style)
      | none => Except.ok missingAttrPlaceholder) = Except.ok missingAttrPlaceholder
    rw [hpath]
    rfl
  · have hmid : renderList (⟨"img", t, attrs, ch⟩ :: l2) =
        .ok (missingAttrPlaceholder :: rs2) := by
      rw [renderList, himg, h2]
    have hall : renderList (l1 ++ ⟨"img", t, attrs, ch⟩ :: l2) =
        .ok (rs1 ++ missingAttrPlaceholder :: rs2) :=
      renderList_append l1 _ rs1 _ h1 hmid
    show (match renderList (l1 ++ ⟨"img", t, attrs, ch⟩ :: l2) with
      | Except.error e => Except.error e
      | Except.ok rendered =>
        match set_attributes emptyStyle pattrs with
        | Except.error e => Except.error e
        | Except.ok style => Except.ok (RNode.div (rendered ++ textChildren pt) style)) = _
    rw [hall, hst]

theorem claim_C9_witness :
    render_component ⟨"img", none, [("alt", "x")], []⟩ =
      .ok missingAttrPlaceholder :=
  (claim_C9 none [("alt", "x")] [] rfl none [] emptyStyle rfl
    [] [] [] [] rfl rfl).1

theorem claim_C4_amended_witness :
    set_attributes emptyStyle [("class", "bg-[#112233]")] =
      .ok (Function.update emptyStyle .bg (some (.color ⟨0x112233⟩))) :=
  (claim_C4_amended emptyStyle).1

theorem claim_C5_witness :
    extract_length_from_class_name "rounded-tl-5px" =
      specExtractLength "rounded-tl-5px" :=
  (claim_C5 "rounded-tl-5px").1

theorem claim_C7_witness :
    parse_component (toEvents (.elem "div" [("class", "flex")] none [])) =
      .ok (toComponent (.elem "div" [("class", "flex")] none [])) :=
  (claim_C7 "div" [("class", "flex")] none []).1

theorem claim_C10_witness :
    parse_component [XEvent.start "a" [], XEvent.endTag,
        XEvent.start "b" [], XEvent.endTag] =
      .ok ⟨"a", none, [], [⟨"b", none, [], []⟩]⟩ :=
  (claim_C10 "a" [] none [] []).2
